import Mathlib

/-!
Shallow embedding of the NES emulator core (Rust sources under src/) in Lean 4.

Modelling conventions:
- Machine integers (u8 / u16 / u32 / u64 / usize) are modelled as `Nat`.
  A `u8`-typed function parameter is masked with `% 256` (and a `u16`
  parameter with `% 65536`) on entry: in Rust the type system guarantees
  the range, here the mask does.  Wrapping arithmetic (`wrapping_add`,
  release-mode overflow) is written with an explicit `% 2^w`.
- Fixed-size byte stores (`Memory` wrapping a `Vec<u8>`) carry their length;
  an out-of-bounds access, which panics in Rust, returns `none`.
  Functions that can reach a panic return `Option`.
- Byte arrays that Rust indexes only in range (`[u8; 32]`, `[u16; 256]`,
  OAM, the frame buffer) are modelled as total functions `Nat → Nat`.
-/

/-- One byte store with bounds-checked access (src/src/memory.rs `Memory`).
`data` is the backing vector, `size` its length. -/
structure Memory where
  data : Nat → Nat
  size : Nat

/-- `Memory::capacity` (src/src/memory.rs). -/
def Memory.capacity (m : Memory) : Nat := m.size

/-- `Memory::read`: `self.data[address]`, panicking (none) out of bounds.
The result is masked to a byte, as the Rust `u8` element type guarantees. -/
def Memory.read (m : Memory) (address : Nat) : Option Nat :=
  if address < m.size then some (m.data address % 256) else none

/-- `Memory::write`: `self.data[address] = value`, panicking (none) out of bounds.
The stored value is masked to a byte, as the Rust `u8` element type forces. -/
def Memory.write (m : Memory) (address value : Nat) : Option Memory :=
  if address < m.size then
    some { m with data := fun i => if i = address then value % 256 else m.data i }
  else none

/-- A `Memory` of `n` zero bytes, `Memory::new(vec![0; n])`. -/
def Memory.zeros (n : Nat) : Memory := { data := fun _ => 0, size := n }

/-- Nametable mirroring mode (src/src/rom/header.rs `Mirroring`). -/
inductive Mirroring where
  | Horizontal
  | Vertical
  | SingleScreen
  | FourScreen
deriving DecidableEq

/-- Mapper 0 (NROM) state (src/src/mappers/m0.rs `Mapper0`). -/
structure Mapper0 where
  chr_rom : Memory
  chr_ram : Memory
  prg_rom : Memory
  prg_ram : Memory

/-- `Mapper0::read` (src/src/mappers/m0.rs).  The invalid-address arm is a
`debug_assert!` followed by `0`; in release builds it returns 0. -/
def Mapper0.read (m : Mapper0) (addr : Nat) : Option Nat :=
  let addr := addr % 65536
  if addr ≤ 0x1FFF then
    if m.chr_rom.capacity = 0 then m.chr_ram.read addr else m.chr_rom.read addr
  else if 0x6000 ≤ addr ∧ addr ≤ 0x7FFF then
    m.prg_ram.read (addr - 0x6000)
  else if 0x8000 ≤ addr then
    let cap16 := m.prg_rom.capacity % 65536
    if 0xC000 ≤ addr ∧ m.prg_rom.capacity ≤ 0x4000 then
      m.prg_rom.read ((addr - 0xC000) % 0x4000)
    else
      if cap16 = 0 then none else m.prg_rom.read ((addr - 0x8000) % cap16)
  else
    some 0

/-- `Mapper0::write` (src/src/mappers/m0.rs).  PRG-ROM writes and invalid
addresses are release-mode no-ops (`debug_assert!`). -/
def Mapper0.write (m : Mapper0) (addr data : Nat) : Option Mapper0 :=
  let addr := addr % 65536
  let data := data % 256
  if addr ≤ 0x1FFF then
    (m.chr_ram.write addr data).map (fun c => { m with chr_ram := c })
  else if 0x6000 ≤ addr ∧ addr ≤ 0x7FFF then
    (m.prg_ram.write (addr - 0x6000) data).map (fun p => { m with prg_ram := p })
  else
    some m

/-- Mapper 1 (MMC1) state (src/src/mappers/m1.rs `Mapper1`). -/
structure Mapper1 where
  chr_rom : Memory
  prg_rom : Memory
  prg_ram : Memory
  shift_register : Nat
  shift_count : Nat
  control : Nat
  chr_bank_0 : Nat
  chr_bank_1 : Nat
  prg_bank : Nat
  last_write_cycle : Nat

/-- `Mapper1::write_register` (src/src/mappers/m1.rs lines 35-63): serial
5-bit shift port.  Bit 7 of the data resets the shift register and ORs the
control register with 0x0C; otherwise bit 0 is shifted in, and the fifth
shift commits the value to the register selected by addr bits 13-14. -/
def Mapper1.write_register (m : Mapper1) (addr data : Nat) : Mapper1 :=
  let addr := addr % 65536
  let data := data % 256
  if data &&& 0x80 ≠ 0 then
    { m with shift_register := 0x10, shift_count := 0, control := m.control ||| 0x0C }
  else
    let sr := (m.shift_register >>> 1) ||| ((data &&& 1) <<< 4)
    let cnt := (m.shift_count + 1) % 256
    if cnt = 5 then
      let value := sr
      let m :=
        if addr &&& 0x6000 = 0x0000 then { m with control := value }
        else if addr &&& 0x6000 = 0x2000 then { m with chr_bank_0 := value }
        else if addr &&& 0x6000 = 0x4000 then { m with chr_bank_1 := value }
        else { m with prg_bank := value }
      { m with shift_register := 0x10, shift_count := 0 }
    else
      { m with shift_register := sr, shift_count := cnt }

/-- `Mapper1::read` (src/src/mappers/m1.rs).  `% capacity as u16` with a zero
capacity is a Rust panic, modelled as `none`; u16 arithmetic wraps mod 65536. -/
def Mapper1.read (m : Mapper1) (addr : Nat) : Option Nat :=
  let addr := addr % 65536
  if addr ≤ 0x1FFF then
    let chrCap := m.chr_rom.capacity % 65536
    if chrCap = 0 then none else
    let chr_mode := (m.control >>> 4) &&& 1
    let bank :=
      if chr_mode = 0 then
        ((addr + (m.chr_bank_0 &&& 0x1E) * 0x1000) % 65536) % chrCap
      else
        if addr < 0x1000 then
          ((addr + m.chr_bank_0 * 0x1000) % 65536) % chrCap
        else
          (((addr - 0x1000) + m.chr_bank_1 * 0x1000) % 65536) % chrCap
    m.chr_rom.read bank
  else if 0x6000 ≤ addr ∧ addr ≤ 0x7FFF then
    m.prg_ram.read (addr - 0x6000)
  else if 0x8000 ≤ addr then
    let prg_mode := (m.control >>> 2) &&& 0x3
    let mapped_addr :=
      if prg_mode = 0 ∨ prg_mode = 1 then
        ((addr - 0x8000) + (m.prg_bank &&& 0x0E) * 0x4000) % 65536
      else if prg_mode = 2 then
        if addr < 0xC000 then addr - 0x8000
        else ((addr - 0xC000) + m.prg_bank * 0x4000) % 65536
      else
        if 0xC000 ≤ addr then
          ((addr - 0xC000) + (m.prg_rom.capacity % 65536 + 65536 - 0x4000) % 65536) % 65536
        else
          ((addr - 0x8000) + m.prg_bank * 0x4000) % 65536
    let prgCap := m.prg_rom.capacity % 65536
    if prgCap = 0 then none else m.prg_rom.read (mapped_addr % prgCap)
  else
    some 0

/-- `Mapper1::write` (src/src/mappers/m1.rs). -/
def Mapper1.write (m : Mapper1) (addr data : Nat) : Option Mapper1 :=
  let addr := addr % 65536
  let data := data % 256
  if addr ≤ 0x1FFF then
    (m.chr_rom.write addr data).map (fun c => { m with chr_rom := c })
  else if 0x6000 ≤ addr ∧ addr ≤ 0x7FFF then
    (m.prg_ram.write (addr - 0x6000) data).map (fun p => { m with prg_ram := p })
  else if 0x8000 ≤ addr then
    some (m.write_register addr data)
  else
    some m

/-- Closed sum of the supported mappers (src/src/mapper.rs `dyn Mapper` over
`MapperFactory::select`, which knows mapper numbers 0 and 1). -/
inductive Mapper where
  | m0 : Mapper0 → Mapper
  | m1 : Mapper1 → Mapper

/-- Dispatch of `Mapper::read`. -/
def Mapper.read : Mapper → Nat → Option Nat
  | .m0 m, addr => m.read addr
  | .m1 m, addr => m.read addr

/-- Dispatch of `Mapper::write`. -/
def Mapper.write : Mapper → Nat → Nat → Option Mapper
  | .m0 m, addr, data => (m.write addr data).map Mapper.m0
  | .m1 m, addr, data => (m.write addr data).map Mapper.m1

/-- The slice of the parsed iNES header the PPU consumes
(src/src/rom/header.rs `RomHeader`: only `mirroring` is read by the PPU). -/
structure RomHeader where
  mirroring : Mirroring

/-- A cartridge: header plus mapper (src/src/rom/mod.rs `Rom`). -/
structure Rom where
  header : RomHeader
  mapper : Mapper

/-- The static 64-colour NES palette as a flat list of 192 RGB bytes
(src/src/ppu.rs `PALETTE`). -/
def PALETTE_DATA : List Nat :=
  [124, 124, 124, 0, 0, 252, 0, 0, 188, 68, 40, 188, 148, 0, 132, 168, 0, 32,
   168, 16, 0, 136, 20, 0, 80, 48, 0, 0, 120, 0, 0, 104, 0, 0, 88, 0,
   0, 64, 88, 0, 0, 0, 0, 0, 0, 0, 0, 0,
   188, 188, 188, 0, 120, 248, 0, 88, 248, 104, 68, 252, 216, 0, 204, 228, 0, 88,
   248, 56, 0, 228, 92, 16, 172, 124, 0, 0, 184, 0, 0, 168, 0, 0, 168, 68,
   0, 136, 136, 0, 0, 0, 0, 0, 0, 0, 0, 0,
   248, 248, 248, 60, 188, 252, 104, 136, 252, 152, 120, 248, 248, 120, 248, 248, 88, 152,
   248, 120, 88, 252, 160, 68, 248, 184, 0, 184, 248, 24, 88, 216, 84, 88, 248, 152,
   0, 232, 216, 120, 120, 120, 0, 0, 0, 0, 0, 0,
   252, 252, 252, 164, 228, 252, 184, 184, 248, 216, 184, 248, 248, 184, 248, 248, 164, 192,
   240, 208, 176, 252, 224, 168, 248, 216, 120, 216, 248, 120, 184, 248, 184, 184, 248, 216,
   0, 252, 252, 248, 216, 248, 0, 0, 0, 0, 0, 0]

/-- Lookup into `PALETTE` (all reachable indexes are in range). -/
def PALETTE (i : Nat) : Nat := PALETTE_DATA.getD i 0

/-- One OAM entry (src/src/ppu.rs `Sprite`): y, tile index, attributes, x. -/
structure Sprite where
  y : Nat
  tile : Nat
  attr : Nat
  x : Nat

/-- `Sprite::new`. -/
def Sprite.new : Sprite := { y := 0, tile := 0, attr := 0, x := 0 }

/-- Scanline classification (src/src/ppu.rs `Scanline`). -/
inductive Scanline where
  | PreRender
  | Visible
  | PostRender
  | VBlank
deriving DecidableEq

/-- `Scanline::from` (src/src/ppu.rs lines 82-90); a scanline outside 0..=261
panics, modelled as `none`. -/
def Scanline.fromLine (scanline : Nat) : Option Scanline :=
  if scanline ≤ 239 then some .Visible
  else if scanline = 240 then some .PostRender
  else if scanline ≤ 260 then some .VBlank
  else if scanline = 261 then some .PreRender
  else none

/-- Full PPU state (src/src/ppu.rs `Ppu`).  The dead `sprites` cache and the
`current_sprite` / `sprites_found` / `sprite_attr_index` counters are carried
but never used, as in the source; debug-log helpers are omitted. -/
structure Ppu where
  ctrl : Nat
  mask : Nat
  status : Nat
  oamaddr : Nat
  v : Nat
  t : Nat
  x : Nat
  w : Bool
  odd_frame : Bool
  vram_buffer : Nat
  open_bus : Nat
  vram : Memory
  rom : Rom
  palette : Nat → Nat
  oam : Nat → Sprite
  secondary_oam : Nat → Nat
  sprite_cache : Nat → Nat
  trigger_nmi : Bool
  cycle : Nat
  scanline : Nat
  frame_ready : Bool
  frame_buffer : Nat → Nat
  nt_byte : Nat
  at_byte : Nat
  at_latch_lo : Nat
  at_latch_hi : Nat
  pt_latch_lo : Nat
  pt_latch_hi : Nat
  at_shifter_lo : Nat
  at_shifter_hi : Nat
  pt_shifter_lo : Nat
  pt_shifter_hi : Nat
  current_sprite : Nat
  sprites_found : Nat
  sprite_attr_index : Nat

/-- `Ppu::new` (src/src/ppu.rs lines 142-197), parametrised by the installed
cartridge (the Rust constructor builds a dummy `Rom`). -/
def Ppu.new (rom : Rom) : Ppu where
  ctrl := 0
  mask := 0
  status := 0
  oamaddr := 0
  v := 0
  t := 0
  x := 0
  w := false
  odd_frame := false
  vram_buffer := 0
  open_bus := 0
  vram := Memory.zeros 0x800
  rom := rom
  palette := fun _ => 0
  oam := fun _ => Sprite.new
  secondary_oam := fun _ => 0xFF
  sprite_cache := fun _ => 0xFFFF
  trigger_nmi := false
  cycle := 0
  scanline := 0
  frame_ready := false
  frame_buffer := fun _ => 0
  nt_byte := 0
  at_byte := 0
  at_latch_lo := 0
  at_latch_hi := 0
  pt_latch_lo := 0
  pt_latch_hi := 0
  at_shifter_lo := 0
  at_shifter_hi := 0
  pt_shifter_lo := 0
  pt_shifter_hi := 0
  current_sprite := 0
  sprites_found := 0
  sprite_attr_index := 0

/-- `Ppu::is_rendering_enabled`. -/
def Ppu.is_rendering_enabled (p : Ppu) : Bool := p.mask &&& 0x18 ≠ 0

/-- `Ppu::is_sprite_rendering_enabled`. -/
def Ppu.is_sprite_rendering_enabled (p : Ppu) : Bool := p.mask &&& 0x10 ≠ 0

/-- `Ppu::sprite_height`. -/
def Ppu.sprite_height (p : Ppu) : Nat := if p.ctrl &&& 0x20 ≠ 0 then 16 else 8

/-- `Ppu::is_bg_rendering_enabled`. -/
def Ppu.is_bg_rendering_enabled (p : Ppu) : Bool := p.mask &&& 0x08 ≠ 0

/-- `Ppu::is_leftmost_bg_rendering_enabled`. -/
def Ppu.is_leftmost_bg_rendering_enabled (p : Ppu) : Bool := p.mask &&& 0x02 ≠ 0

/-- `Ppu::is_leftmost_sprite_rendering_enabled`. -/
def Ppu.is_leftmost_sprite_rendering_enabled (p : Ppu) : Bool := p.mask &&& 0x04 ≠ 0

/-- `Ppu::sprite_pattern_table_address`. -/
def Ppu.sprite_pattern_table_address (p : Ppu) : Nat :=
  if p.ctrl &&& 0x8 ≠ 0 then 0x1000 else 0

/-- `Ppu::bg_pattern_table_address`. -/
def Ppu.bg_pattern_table_address (p : Ppu) : Nat :=
  if p.ctrl &&& 0x10 ≠ 0 then 0x1000 else 0

/-- `Ppu::fine_y`. -/
def Ppu.fine_y (p : Ppu) : Nat := (p.v >>> 12) &&& 7

/-- `Ppu::coarse_y`. -/
def Ppu.coarse_y (p : Ppu) : Nat := (p.v &&& 0x3E0) >>> 5

/-- `Ppu::coarse_x`. -/
def Ppu.coarse_x (p : Ppu) : Nat := p.v &&& 0x1F

/-- `Ppu::increment_h` (src/src/ppu.rs lines 837-843): coarse-X increment
with wrap at 31 toggling nametable bit 10 (`!0x001F` as u16 is 0xFFE0). -/
def Ppu.increment_h (p : Ppu) : Ppu :=
  if p.v &&& 0x001F = 31 then { p with v := (p.v &&& 0xFFE0) ^^^ 0x0400 }
  else { p with v := p.v + 1 }

/-- `Ppu::increment_v` (src/src/ppu.rs lines 846-864): fine-Y increment with
coarse-Y wrap at 29 toggling bit 11 and clamp at 31 (`!0x7000` = 0x8FFF,
`!0x03E0` = 0xFC1F as u16). -/
def Ppu.increment_v (p : Ppu) : Ppu :=
  if p.v &&& 0x7000 ≠ 0x7000 then { p with v := p.v + 0x1000 }
  else
    let v1 := p.v &&& 0x8FFF
    let y0 := (v1 &&& 0x03E0) >>> 5
    let yv :=
      if y0 = 29 then (0, v1 ^^^ 0x0800)
      else if y0 = 31 then (0, v1)
      else (y0 + 1, v1)
    { p with v := (yv.2 &&& 0xFC1F) ||| (yv.1 <<< 5) }

/-- `Ppu::copy_h` (src/src/ppu.rs line 868): `!0x041F` as u16 is 0xFBE0. -/
def Ppu.copy_h (p : Ppu) : Ppu :=
  { p with v := (p.v &&& 0xFBE0) ||| (p.t &&& 0x041F) }

/-- `Ppu::copy_v` (src/src/ppu.rs lines 872-875): the y mask is
`0x7000 | 0x0800 | 0x03E0 = 0x7BE0`, its u16 complement 0x841F. -/
def Ppu.copy_v (p : Ppu) : Ppu :=
  { p with v := (p.v &&& 0x841F) ||| (p.t &&& 0x7BE0) }

/-- `Ppu::increment_vram_addr` (src/src/ppu.rs lines 788-791). -/
def Ppu.increment_vram_addr (p : Ppu) : Ppu :=
  let increment := if p.ctrl &&& 0x04 ≠ 0 then 32 else 1
  { p with v := (p.v + increment) &&& 0x7FFF }

/-- `Ppu::map_vram_addr` (src/src/ppu.rs lines 649-683): nametable mirroring;
a non-nametable address panics (`none`). -/
def Ppu.map_vram_addr (p : Ppu) (addr : Nat) : Option Nat :=
  let addr := (addr % 65536) &&& 0x3FFF
  if addr < 0x2000 then none
  else
    let addr := if 0x3000 ≤ addr then addr - 0x1000 else addr
    let nametable := ((addr - 0x2000) >>> 10) &&& 0x3
    let offset := (addr - 0x2000) &&& 0x3FF
    let mapped_table :=
      match p.rom.header.mirroring with
      | .Horizontal => if nametable < 2 then 0 else 1
      | .Vertical => nametable &&& 0x1
      | .SingleScreen => 0
      | .FourScreen => nametable
    some (mapped_table * 0x400 + offset)

/-- `Ppu::read` (src/src/ppu.rs lines 585-604): pattern space goes to the
mapper, nametable space through mirroring into VRAM, 0x3F00-0x3FFF into the
palette RAM; the open-bus arm is unreachable after the 0x3FFF mask. -/
def Ppu.read (p : Ppu) (addr : Nat) : Option Nat :=
  let m_addr := (addr % 65536) &&& 0x3FFF
  if m_addr < 0x2000 then
    p.rom.mapper.read m_addr
  else if m_addr < 0x3F00 then
    (p.map_vram_addr m_addr).bind fun v_addr => p.vram.read v_addr
  else
    some (p.palette ((m_addr - 0x3F00) % 0x20))

/-- The body of `Ppu::write` (src/src/ppu.rs lines 618-647): every write
refreshes the open bus; pattern-space writes fall into an empty arm;
0x3000-0x3EFF recurses one level down with `addr - 0x1000`; palette writes
mirror every fourth entry into the opposite half.  The Rust recursion is
carried on an explicit fuel counter so the definition is structural (and
hence kernel-reducible); `Ppu.writeF_fuel_stable` below proves the
recursion depth is at most one, so the out-of-fuel arm of `Ppu.write`
(fuel 2) is unreachable. -/
def Ppu.writeF : Nat → Ppu → Nat → Nat → Option Ppu
  | 0, _, _, _ => none
  | fuel + 1, p, addr, data =>
    let p1 : Ppu := { p with open_bus := data % 256 }
    if ((addr % 65536) &&& 0x3FFF) < 0x2000 then
      some p1
    else if ((addr % 65536) &&& 0x3FFF) < 0x3000 then
      (p1.map_vram_addr ((addr % 65536) &&& 0x3FFF)).bind fun mirr_addr =>
        (p1.vram.write mirr_addr data).map fun vr => { p1 with vram := vr }
    else if ((addr % 65536) &&& 0x3FFF) < 0x3F00 then
      Ppu.writeF fuel p1 (addr - 0x1000) data
    else
      let m2 := (((addr % 65536) &&& 0x3FFF) - 0x3F00) % 0x20
      let pal1 := fun i => if i = m2 then data % 256 else p1.palette i
      let pal2 :=
        if m2 % 4 = 0 then fun i => if i = (m2 ^^^ 0x10) then data % 256 else pal1 i
        else pal1
      some { p1 with palette := pal2 }

/-- `Ppu::write`. -/
def Ppu.write (p : Ppu) (addr data : Nat) : Option Ppu := Ppu.writeF 2 p addr data

/-- A 14-bit mask is a `mod` by 0x4000. -/
theorem land_0x3FFF_eq_mod (x : Nat) : x &&& 0x3FFF = x % 0x4000 := by
  have h := Nat.and_pow_two_sub_one_eq_mod x 14
  norm_num at h
  exact h

/-- The redirected call in `Ppu::write` always lands in the nametable arm:
any fuel of at least two gives the same result, so `Ppu.write`'s fuel of 2
never runs out. -/
theorem Ppu.writeF_fuel_stable (n : Nat) (p : Ppu) (addr data : Nat) :
    Ppu.writeF (n + 2) p addr data = Ppu.writeF 2 p addr data := by
  simp only [Ppu.writeF, land_0x3FFF_eq_mod]
  by_cases h1 : addr % 65536 % 0x4000 < 0x2000
  · simp [h1]
  by_cases h2 : addr % 65536 % 0x4000 < 0x3000
  · simp [h1, h2]
  by_cases h3 : addr % 65536 % 0x4000 < 0x3F00
  · simp only [h1, h2, h3, if_true, if_false, ite_true, ite_false]
    have hm : (addr - 0x1000) % 65536 % 0x4000 = addr % 65536 % 0x4000 - 0x1000 := by omega
    rw [hm]
    have l1 : ¬(addr % 65536 % 0x4000 - 0x1000 < 0x2000) := by omega
    have l2 : addr % 65536 % 0x4000 - 0x1000 < 0x3000 := by omega
    simp [l1, l2]
  · simp [h1, h2, h3]

/-- `Ppu::read_status` (src/src/ppu.rs lines 686-692): returns the raw status
byte; clears VBlank (`!0x80` as u8 is 0x7F), resets the write toggle, and
blends status bits 5-7 with the low open-bus bits into `open_bus`. -/
def Ppu.read_status (p : Ppu) : Nat × Ppu :=
  let data := p.status
  let p := { p with status := p.status &&& 0x7F, w := false }
  (data, { p with open_bus := (data &&& 0xE0) ||| (p.open_bus &&& 0x1F) })

/-- `Ppu::read_oam` (src/src/ppu.rs lines 695-698): always 0xFF. -/
def Ppu.read_oam (_p : Ppu) : Nat := 0xFF

/-- `Ppu::read_data` (src/src/ppu.rs lines 700-720): palette addresses read
through directly; others return the stale buffer and refill it; then the
VRAM address advances. -/
def Ppu.read_data (p : Ppu) : Option (Nat × Ppu) :=
  if (p.v &&& 0x3FFF) ≥ 0x3F00 then
    (p.read p.v).map fun data => (data, p.increment_vram_addr)
  else
    (p.read p.v).map fun nb =>
      (p.vram_buffer, ({ p with vram_buffer := nb } : Ppu).increment_vram_addr)

/-- `Ppu::write_ctrl` (src/src/ppu.rs lines 722-732).  Note the source
compares `& 0x80` against 1, not 0. -/
def Ppu.write_ctrl (p : Ppu) (data : Nat) : Ppu :=
  let data := data % 256
  let old_ctrl := p.ctrl
  let p := { p with ctrl := data }
  let p :=
    if old_ctrl &&& 0x80 = 0 ∧ p.ctrl &&& 0x80 = 1 ∧ p.status &&& 0x80 = 1 then
      { p with trigger_nmi := true }
    else p
  let p := { p with t := p.t &&& 0xF3FF }
  { p with t := p.t ||| ((data &&& 0x3) <<< 10) }

/-- `Ppu::write_mask`. -/
def Ppu.write_mask (p : Ppu) (data : Nat) : Ppu := { p with mask := data % 256 }

/-- `Ppu::write_oamaddr`. -/
def Ppu.write_oamaddr (p : Ppu) (data : Nat) : Ppu := { p with oamaddr := data % 256 }

/-- `Ppu::write_oamdata` (src/src/ppu.rs lines 743-758): stores into the OAM
field selected by the low two bits of `oamaddr`, then increments `oamaddr`. -/
def Ppu.write_oamdata (p : Ppu) (data : Nat) : Ppu :=
  let data := data % 256
  let sprite_index := p.oamaddr / 4
  let byte_offset := p.oamaddr % 4
  let p :=
    if sprite_index < 64 then
      let s := p.oam sprite_index
      let s2 :=
        if byte_offset = 0 then { s with y := data }
        else if byte_offset = 1 then { s with tile := data }
        else if byte_offset = 2 then { s with attr := data }
        else { s with x := data }
      { p with oam := fun i => if i = sprite_index then s2 else p.oam i }
    else p
  { p with oamaddr := (p.oamaddr + 1) % 256 }

/-- `Ppu::write_scroll` (src/src/ppu.rs lines 760-769). -/
def Ppu.write_scroll (p : Ppu) (data : Nat) : Ppu :=
  let data := data % 256
  let p :=
    if p.w = false then
      let p := { p with x := data &&& 0x07 }
      { p with t := (p.t &&& 0xFFE0) ||| (data >>> 3) }
    else
      { p with t := (p.t &&& 0x8C1F) ||| ((data &&& 0xF8) <<< 2) ||| ((data &&& 0x07) <<< 12) }
  { p with w := !p.w }

/-- `Ppu::write_addr` (src/src/ppu.rs lines 771-780). -/
def Ppu.write_addr (p : Ppu) (data : Nat) : Ppu :=
  let data := data % 256
  let p :=
    if p.w = false then
      { p with t := (p.t &&& 0x00FF) ||| ((data &&& 0x3F) <<< 8) }
    else
      let p := { p with t := (p.t &&& 0xFF00) ||| data }
      { p with v := p.t }
  { p with w := !p.w }

/-- `Ppu::write_data` (src/src/ppu.rs lines 782-785). -/
def Ppu.write_data (p : Ppu) (data : Nat) : Option Ppu :=
  (p.write p.v data).map Ppu.increment_vram_addr

/-- `Ppu::get_nt`. -/
def Ppu.get_nt (p : Ppu) : Option Nat := p.read (0x2000 ||| (p.v &&& 0x0FFF))

/-- `Ppu::get_attribute`. -/
def Ppu.get_attribute (p : Ppu) : Option Nat :=
  p.read (0x23C0 ||| (p.v &&& 0x0C00) ||| ((p.v >>> 4) &&& 0x38) ||| ((p.v >>> 2) &&& 0x07))

/-- `Ppu::reverse_byte`. -/
def Ppu.reverse_byte (x : Nat) : Nat :=
  let x := x % 256
  let x := ((x &&& 0xaa) >>> 1) ||| ((x &&& 0x55) <<< 1)
  let x := ((x &&& 0xcc) >>> 2) ||| ((x &&& 0x33) <<< 2)
  ((x &&& 0xf0) >>> 4) ||| ((x &&& 0x0f) <<< 4)

/-- `Ppu::reload_shifters` (src/src/ppu.rs lines 433-439). -/
def Ppu.reload_shifters (p : Ppu) : Ppu :=
  let p := { p with pt_shifter_lo := (p.pt_shifter_lo &&& 0xFF00) ||| p.pt_latch_lo }
  let p := { p with pt_shifter_hi := (p.pt_shifter_hi &&& 0xFF00) ||| p.pt_latch_hi }
  let p := { p with at_latch_lo := p.at_byte &&& 1 }
  { p with at_latch_hi := p.at_byte &&& 2 }

/-- `Ppu::load_shift_registers` (src/src/ppu.rs lines 441-491): the 8-dot
background fetch schedule. -/
def Ppu.load_shift_registers (p : Ppu) : Option Ppu :=
  if (1 ≤ p.cycle ∧ p.cycle ≤ 256) ∨ (321 ≤ p.cycle ∧ p.cycle ≤ 336) then
    if (p.cycle - 1) % 8 = 0 then
      (p.get_nt).map fun nb => { p with nt_byte := nb }
    else if (p.cycle - 1) % 8 = 2 then
      (p.get_attribute).map fun ab =>
        let p := { p with at_byte := ab }
        let p := if p.coarse_y &&& 2 ≠ 0 then { p with at_byte := p.at_byte >>> 4 } else p
        if p.coarse_x &&& 2 ≠ 0 then { p with at_byte := p.at_byte >>> 2 } else p
    else if (p.cycle - 1) % 8 = 4 then
      let addr := p.bg_pattern_table_address + p.nt_byte * 16 + p.fine_y
      (p.read addr).map fun d => { p with pt_latch_lo := d }
    else if (p.cycle - 1) % 8 = 6 then
      let addr := p.bg_pattern_table_address + p.nt_byte * 16 + p.fine_y
      (p.read (addr + 8)).map fun d => { p with pt_latch_hi := d }
    else if (p.cycle - 1) % 8 = 7 then
      some p.reload_shifters
    else
      some p
  else if 257 ≤ p.cycle ∧ p.cycle ≤ 320 then
    if p.cycle = 257 then some p.reload_shifters else some p
  else if p.cycle = 337 then
    (p.get_nt).map fun nb => { p with nt_byte := nb }
  else if p.cycle = 339 then
    (p.get_nt).map fun nb => { p with nt_byte := nb }
  else
    some p

/-- The cycle-65 scan of `Ppu::evaluate_sprites` (src/src/ppu.rs lines
260-277): walk primary OAM from index `i` for `r` more entries, collecting
into secondary OAM the indexes of sprites whose Y range covers the scanline,
breaking once eight are found.  Returns the updated secondary OAM, the
number collected (`n_idx`) and the break marker `n`. -/
def spriteScanGo (oam : Nat → Sprite) (scanline sp_h : Nat) :
    Nat → Nat → Nat → Nat → (Nat → Nat) → ((Nat → Nat) × Nat × Nat)
  | 0, _, n_idx, n, sec => (sec, n_idx, n)
  | r + 1, i, n_idx, n, sec =>
    let y := (oam i).y
    if y ≤ scanline ∧ scanline < y + sp_h then
      let sec2 := fun j => if j = n_idx then i else sec j
      if n_idx + 1 = 8 then (sec2, n_idx + 1, i + 1)
      else spriteScanGo oam scanline sp_h r (i + 1) (n_idx + 1) n sec2
    else
      spriteScanGo oam scanline sp_h r (i + 1) n_idx n sec

/-- The overflow rescan of `Ppu::evaluate_sprites` (src/src/ppu.rs lines
279-298): rescans all 256 OAM bytes as Y coordinates; `idx` enumerates
`(i, j)` pairs row-major, `m` and `n` are the source's (otherwise unused)
loop counters.  Returns whether the sprite-overflow bit is to be set, with
the final `m` and `n`. -/
def overflowScanGo (oam : Nat → Sprite) (scanline sp_h : Nat) :
    Nat → Nat → Nat → Nat → Bool → (Bool × Nat × Nat)
  | 0, _, m, n, hit => (hit, m, n)
  | r + 1, idx, m, n, hit =>
    let i := idx / 4
    let j := idx % 4
    let y :=
      if j = 0 then (oam i).y
      else if j = 1 then (oam i).tile
      else if j = 2 then (oam i).attr
      else (oam i).x
    if y ≤ scanline ∧ scanline < y + sp_h then
      overflowScanGo oam scanline sp_h r (idx + 1) m (n + 1) true
    else
      overflowScanGo oam scanline sp_h r (idx + 1) ((m + 1) &&& 3) (n + 1) hit

/-- The per-sprite cache fill of `Ppu::fetch_sprite` (src/src/ppu.rs lines
357-366): walk `sprite_cache[x..x_max]` in reverse, writing the first
non-transparent sprite pixel into each still-empty column while shifting the
pattern bytes right.  `count` counts down from `x_max - x`, `pos` from
`x_max - 1`. -/
def spriteCacheGo (j attr palette : Nat) :
    Nat → Nat → Nat → Nat → (Nat → Nat) → (Nat → Nat)
  | 0, _, _, _, cache => cache
  | count + 1, pos, pt_lo, pt_hi, cache =>
    let cache2 :=
      if cache pos = 0xFFFF then
        let sp := (palette <<< 2) ||| ((pt_hi &&& 1) <<< 1) ||| (pt_lo &&& 1)
        if sp &&& 3 ≠ 0 then
          fun q =>
            if q = pos then
              ((if j = 0 then 1 else 0) <<< 15) ||| (((attr >>> 5) &&& 1) <<< 8) ||| sp
            else cache q
        else cache
      else cache
    spriteCacheGo j attr palette count (pos - 1) (pt_lo >>> 1) (pt_hi >>> 1) cache2

/-- The sprite loop of `Ppu::fetch_sprite` (src/src/ppu.rs lines 313-367):
for each of the up-to-eight selected sprites, fetch its pattern bytes and
splat its pixels into the sprite cache, stopping at the first empty slot.
The u16/u8 subtractions wrap as in a release build. -/
def fetchSpriteGo (p : Ppu) : Nat → Nat → Option Ppu
  | 0, _ => some p
  | r + 1, i =>
    let j := p.secondary_oam i
    if j = 0xFF then some p
    else
      let y := (p.oam j).y
      let tile := (p.oam j).tile
      let attr := (p.oam j).attr
      let x := (p.oam j).x
      let v_flip := attr &&& 0x80 ≠ 0
      let h_flip := attr &&& 0x40 ≠ 0
      let y0 := (p.scanline + 65536 - y % 65536) % 65536
      let pty :=
        if p.sprite_height = 8 then
          let yy := if v_flip then (7 + 256 - y0 % 256) % 256 else y0 % 256
          ((p.ctrl &&& 0x08) <<< 9, tile, yy)
        else
          let yy := if v_flip then (15 + 256 - y0 % 256) % 256 else y0 % 256
          ((tile &&& 1) <<< 12, (tile &&& 0xFE) ||| (yy >>> 3), yy &&& 0x7)
      let addr := pty.1 ||| (pty.2.1 <<< 4) ||| pty.2.2
      (p.read addr).bind fun lo =>
        (p.read (addr + 8)).bind fun hi =>
          let pt_lo := if h_flip then Ppu.reverse_byte lo else lo
          let pt_hi := if h_flip then Ppu.reverse_byte hi else hi
          let palette := attr &&& 3
          let x_max := if x + 8 < 256 then x + 8 else 256
          let cache := spriteCacheGo j attr palette (x_max - x) (x_max - 1) pt_lo pt_hi p.sprite_cache
          fetchSpriteGo { p with sprite_cache := cache } r (i + 1)

/-- `Ppu::fetch_sprite` (src/src/ppu.rs lines 309-368): clears the sprite
cache and fills it from the eight secondary-OAM slots. -/
def Ppu.fetch_sprite (p : Ppu) : Option Ppu :=
  fetchSpriteGo { p with sprite_cache := fun _ => 0xFFFF } 8 0

/-- `Ppu::evaluate_sprites` (src/src/ppu.rs lines 250-307): dot 1 clears
secondary OAM, dot 65 runs the scan (plus overflow rescan when the first
eight OAM entries were all in range), dot 257 fetches the sprite cache. -/
def Ppu.evaluate_sprites (p : Ppu) : Option Ppu :=
  if p.cycle = 1 then
    some { p with secondary_oam := fun _ => 0xFF }
  else if p.cycle = 65 then
    let scan := spriteScanGo p.oam p.scanline p.sprite_height 64 0 0 0 p.secondary_oam
    let p := { p with secondary_oam := scan.1 }
    if scan.2.2 = 8 then
      let ov := overflowScanGo p.oam p.scanline p.sprite_height 256 0 0 8 false
      some (if ov.1 then { p with status := p.status ||| 0x20 } else p)
    else
      some p
  else if p.cycle = 257 then
    p.fetch_sprite
  else
    some p

/-- `Ppu::load_pixel` (src/src/ppu.rs lines 493-567): composite one pixel
from the background shifters and the sprite cache into the frame buffer,
set sprite-0 hit, then clock the shifters. -/
def Ppu.load_pixel (p : Ppu) : Ppu :=
  if p.scanline ≥ 240 ∨ p.cycle > 256 ∨ p.cycle = 0 then p
  else
    let bg :=
      if p.is_bg_rendering_enabled ∧ (p.cycle ≥ 8 ∨ p.is_leftmost_bg_rendering_enabled) then
        let fine_x := p.x &&& 0x7
        let shift := 15 - fine_x
        let bg_pixel := (((p.pt_shifter_hi >>> shift) &&& 1) <<< 1) ||| ((p.pt_shifter_lo >>> shift) &&& 1)
        let bg_palette := ((((p.at_shifter_hi >>> (7 - fine_x)) &&& 1) <<< 1) |||
                          ((p.at_shifter_lo >>> (7 - fine_x)) &&& 1)) <<< 2
        (bg_pixel, bg_palette)
      else (0, 0)
    let spr : Nat × Nat × Bool × Nat :=
      if p.is_sprite_rendering_enabled ∧ (p.cycle ≥ 8 ∨ p.is_leftmost_sprite_rendering_enabled) then
        let xx := p.cycle - 1
        let sp := p.sprite_cache xx
        if sp ≠ 0xFFFF then
          let status2 :=
            if (sp >>> 15) = 1 ∧ bg.1 ≠ 0 ∧ xx ≠ 0xFF then p.status ||| 0x40 else p.status
          let sprite_priority := (sp >>> 8) &&& 1 ≠ 0
          let pap := sp &&& 0xFF
          let sprite_pixel := pap &&& 0x03
          let sprite_palette := if sprite_pixel ≠ 0 then (pap &&& 0x0C) ||| 0x10 else 0
          (sprite_pixel, sprite_palette, sprite_priority, status2)
        else (0, 0, false, p.status)
      else (0, 0, false, p.status)
    let fin :=
      if bg.1 = 0 ∧ spr.1 = 0 then (0, 0)
      else if bg.1 = 0 then (spr.1, spr.2.1)
      else if spr.1 = 0 then (bg.1, bg.2)
      else if spr.2.2.1 = true then (bg.1, bg.2) else (spr.1, spr.2.1)
    let palette_idx := if fin.1 = 0 then 0 else fin.2 ||| fin.1
    let color := p.palette palette_idx &&& 0x3F
    let xx := p.cycle - 1
    let y := p.scanline
    let idx := (y * 256 + xx) * 3
    let fb := fun q =>
      if q = idx then PALETTE (color * 3)
      else if q = idx + 1 then PALETTE (color * 3 + 1)
      else if q = idx + 2 then PALETTE (color * 3 + 2)
      else p.frame_buffer q
    { p with
      status := spr.2.2.2
      frame_buffer := fb
      pt_shifter_lo := (p.pt_shifter_lo <<< 1) % 65536
      pt_shifter_hi := (p.pt_shifter_hi <<< 1) % 65536
      at_shifter_lo := ((p.at_shifter_lo <<< 1) ||| p.at_latch_lo) % 256
      at_shifter_hi := ((p.at_shifter_hi <<< 1) ||| p.at_latch_hi) % 256 }

/-- `Ppu::update_scroll` (src/src/ppu.rs lines 398-431): the h/v increments
and copies, gated on rendering being enabled and the scanline being visible
or pre-render. -/
def Ppu.update_scroll (p : Ppu) : Ppu :=
  if ¬p.is_rendering_enabled then p
  else if p.scanline < 240 ∨ p.scanline = 261 then
    let p :=
      if 0 < p.cycle ∧ p.cycle ≤ 256 then
        if p.cycle % 8 = 0 then p.increment_h else p
      else if 321 ≤ p.cycle ∧ p.cycle ≤ 336 then
        if p.cycle % 8 = 0 then p.increment_h else p
      else p
    let p := if p.cycle = 256 then p.increment_v else p
    let p := if p.cycle = 257 then p.copy_h else p
    if p.scanline = 261 ∧ 280 ≤ p.cycle ∧ p.cycle ≤ 304 then p.copy_v else p
  else p

/-- `Ppu::step` (src/src/ppu.rs lines 199-248): one PPU dot.  Classify the
scanline, run the per-dot work, raise VBlank (and, when NMI output is
enabled, `trigger_nmi` and `frame_ready`) at dot 241:1, advance the
(dot, scanline) counters honouring the odd-frame skip, then update scroll. -/
def Ppu.step (p : Ppu) : Option Ppu :=
  let render := p.is_rendering_enabled
  (Scanline.fromLine p.scanline).bind fun sl =>
    (match sl with
      | .PreRender =>
        let p := if p.cycle = 0 then { p with odd_frame := !p.odd_frame } else p
        if render then (p.load_pixel).load_shift_registers else some p
      | .Visible =>
        if render then
          (p.evaluate_sprites).bind fun p => (p.load_pixel).load_shift_registers
        else some p
      | .PostRender => some p
      | .VBlank =>
        if p.scanline = 241 ∧ p.cycle = 1 then
          let p := { p with status := p.status ||| 0x80 }
          if p.ctrl &&& 0x80 ≠ 0 then
            some { p with trigger_nmi := true, frame_ready := true }
          else some p
        else some p
      ).bind fun p =>
    let skip_cycle := p.scanline = 261 ∧ p.cycle = 339 ∧ p.odd_frame ∧ render
    let p :=
      if skip_cycle then { p with cycle := 0, scanline := 0 }
      else
        let p := { p with cycle := p.cycle + 1 }
        if p.cycle ≥ 341 then { p with cycle := 0, scanline := (p.scanline + 1) % 262 }
        else p
    some p.update_scroll

/-- Button states of one pad (src/src/controller.rs `ButtonStates`). -/
structure ButtonStates where
  a : Bool
  b : Bool
  select : Bool
  start : Bool
  up : Bool
  down : Bool
  left : Bool
  right : Bool

/-- `ButtonStates::default()`: all released. -/
def ButtonStates.init : ButtonStates :=
  { a := false, b := false, select := false, start := false
    up := false, down := false, left := false, right := false }

/-- Standard NES pad (src/src/controller.rs `Controller`).  The host-input
setters (`set_button`, `set_button_states`) are not needed by the bus and
are omitted. -/
structure Controller where
  shift_register : Nat
  buttons : ButtonStates
  strobe : Bool

/-- `Controller::new`. -/
def Controller.new : Controller :=
  { shift_register := 0, buttons := ButtonStates.init, strobe := false }

/-- `Controller::latch_buttons` (src/src/controller.rs lines 78-88). -/
def Controller.latch_buttons (c : Controller) : Controller :=
  let sr := (if c.buttons.a then 0x80 else 0) ||| (if c.buttons.b then 0x40 else 0) |||
            (if c.buttons.select then 0x20 else 0) ||| (if c.buttons.start then 0x10 else 0) |||
            (if c.buttons.up then 0x08 else 0) ||| (if c.buttons.down then 0x04 else 0) |||
            (if c.buttons.left then 0x02 else 0) ||| (if c.buttons.right then 0x01 else 0)
  { c with shift_register := sr }

/-- `Controller::write` (src/src/controller.rs lines 43-52). -/
def Controller.write (c : Controller) (value : Nat) : Controller :=
  let new_strobe := (value % 256) &&& 0x01 = 0x01
  let c := if ¬c.strobe ∧ new_strobe then c.latch_buttons else c
  { c with strobe := new_strobe }

/-- `Controller::read` (src/src/controller.rs lines 55-65): bit 7 out, then
shift unless strobing. -/
def Controller.read (c : Controller) : Nat × Controller :=
  if c.strobe then
    (if c.shift_register &&& 0x80 ≠ 0 then 1 else 0, c)
  else
    (if c.shift_register &&& 0x80 ≠ 0 then 1 else 0,
     { c with shift_register := (c.shift_register <<< 1) % 256 })

/-- Bus state (src/src/cpu/bus.rs `Bus`). -/
structure Bus where
  ram : Memory
  ppu : Ppu
  cycles : Nat
  reset : Bool
  dma_transfer : Bool × Nat
  controller1 : Controller
  controller2 : Controller

/-- `Bus::new`, parametrised by the cartridge installed into the PPU. -/
def Bus.new (rom : Rom) : Bus :=
  { ram := Memory.zeros 0x800, ppu := Ppu.new rom, cycles := 0, reset := false
    dma_transfer := (false, 0), controller1 := Controller.new, controller2 := Controller.new }

/-- `Bus::ignore_ppu_writes` (src/src/cpu/bus.rs lines 93-95). -/
def Bus.ignore_ppu_writes (b : Bus) : Bool := b.reset ∧ b.cycles < 29658

/-- `Bus::read` (src/src/cpu/bus.rs lines 31-54): CPU-side address decode. -/
def Bus.read (b : Bus) (addr : Nat) : Option (Nat × Bus) :=
  let addr := addr % 65536
  if addr < 0x2000 then
    (b.ram.read (addr &&& 0x7FF)).map fun d => (d, b)
  else if addr < 0x4000 then
    let m_addr := addr &&& 0x2007
    if m_addr = 0x2002 then
      let r := b.ppu.read_status
      some (r.1, { b with ppu := r.2 })
    else if m_addr = 0x2004 then
      some (b.ppu.read_oam, b)
    else if m_addr = 0x2007 then
      (b.ppu.read_data).map fun r => (r.1, { b with ppu := r.2 })
    else
      some (b.ppu.open_bus, b)
  else if addr = 0x4016 then
    let r := b.controller1.read
    some (r.1, { b with controller1 := r.2 })
  else if addr = 0x4017 then
    let r := b.controller2.read
    some (r.1, { b with controller2 := r.2 })
  else if addr < 0x4020 then
    some (0, b)
  else
    (b.ppu.rom.mapper.read addr).map fun d => (d, b)

/-- `Bus::write` (src/src/cpu/bus.rs lines 56-90): CPU-side address decode;
every PPU-register write also refreshes the PPU open bus, and ctrl, mask,
scroll and addr writes are suppressed during the post-reset warm-up. -/
def Bus.write (b : Bus) (addr data : Nat) : Option Bus :=
  let addr := addr % 65536
  let data := data % 256
  if addr < 0x2000 then
    (b.ram.write (addr &&& 0x7FF) data).map fun r => { b with ram := r }
  else if addr < 0x4000 then
    let m_addr := addr &&& 0x2007
    (if m_addr = 0x2000 then
      some (if ¬b.ignore_ppu_writes then { b with ppu := b.ppu.write_ctrl data } else b)
    else if m_addr = 0x2001 then
      some (if ¬b.ignore_ppu_writes then { b with ppu := b.ppu.write_mask data } else b)
    else if m_addr = 0x2003 then
      some { b with ppu := b.ppu.write_oamaddr data }
    else if m_addr = 0x2004 then
      some { b with ppu := b.ppu.write_oamdata data }
    else if m_addr = 0x2005 then
      some (if ¬b.ignore_ppu_writes then { b with ppu := b.ppu.write_scroll data } else b)
    else if m_addr = 0x2006 then
      some (if ¬b.ignore_ppu_writes then { b with ppu := b.ppu.write_addr data } else b)
    else if m_addr = 0x2007 then
      (b.ppu.write_data data).map fun pp => { b with ppu := pp }
    else
      some b).map fun b2 => { b2 with ppu := { b2.ppu with open_bus := data } }
  else if addr = 0x4016 then
    let b := { b with controller1 := b.controller1.write data }
    some { b with controller2 := b.controller2.write data }
  else if addr < 0x4020 then
    if addr = 0x4014 then some { b with dma_transfer := (true, data) } else some b
  else
    (b.ppu.rom.mapper.write addr data).map fun mp =>
      { b with ppu := { b.ppu with rom := { b.ppu.rom with mapper := mp } } }

/-- CPU status flags with their bit masks (src/src/cpu/cpu.rs `StatusFlag`). -/
inductive StatusFlag where
  | Carry
  | Zero
  | InterruptDisable
  | Decimal
  | Break
  | BreakIrq
  | Overflow
  | Negative
deriving DecidableEq

/-- The `as u8` value of a `StatusFlag`. -/
def StatusFlag.toNat : StatusFlag → Nat
  | .Carry => 0x01
  | .Zero => 0x02
  | .InterruptDisable => 0x04
  | .Decimal => 0x08
  | .Break => 0x10
  | .BreakIrq => 0x20
  | .Overflow => 0x40
  | .Negative => 0x80

/-- Interrupt kinds (src/src/cpu/cpu.rs `Interrupt`). -/
inductive Interrupt where
  | NMI
  | RESET
  | IRQ
  | BRK

/-- Addressing modes (src/src/cpu/instructions.rs `AddressingMode`). -/
inductive AddressingMode where
  | Implied
  | Accumulator
  | Immediate
  | ZeroPage
  | ZeroPageX
  | ZeroPageY
  | Absolute
  | AbsoluteX
  | AbsoluteY
  | Indirect
  | IndirectX
  | IndirectY
  | Relative
deriving DecidableEq

/-- CPU state (src/src/cpu/cpu.rs `Cpu`).  The clock-period constant and the
debug-logging fields are omitted (the embedding models `debug_mode = false`). -/
structure Cpu where
  a : Nat
  x : Nat
  y : Nat
  pc : Nat
  sp : Nat
  p : Nat
  update_interrupt_disable : Bool × Nat
  bus : Bus

/-- `Cpu::new`, parametrised by the cartridge. -/
def Cpu.new (rom : Rom) : Cpu :=
  { a := 0, x := 0, y := 0, pc := 0xFFFC, sp := 0, p := 0x24
    update_interrupt_disable := (false, 0), bus := Bus.new rom }

/-- `Cpu::set_flag` (src/src/cpu/cpu.rs lines 458-464); `!(flag as u8)` is
`0xFF ^ flag`. -/
def Cpu.set_flag (c : Cpu) (flag : StatusFlag) (value : Bool) : Cpu :=
  if value then { c with p := c.p ||| flag.toNat }
  else { c with p := c.p &&& (0xFF ^^^ flag.toNat) }

/-- `Cpu::set_zero_negative_flag`. -/
def Cpu.set_zero_negative_flag (c : Cpu) (data : Nat) : Cpu :=
  let data := data % 256
  (c.set_flag .Zero (data = 0)).set_flag .Negative (data &&& 0x80 ≠ 0)

/-- `Cpu::get_carry_bit`. -/
def Cpu.get_carry_bit (c : Cpu) : Nat := c.p &&& 0x1

/-- `Cpu::page_boundary_cycle` (src/src/cpu/cpu.rs lines 466-468). -/
def Cpu.page_boundary_cycle (_c : Cpu) (addr1 addr2 : Nat) : Nat :=
  if addr1 &&& 0xFF00 ≠ addr2 &&& 0xFF00 then 1 else 0

/-- `Cpu::inc_pc`: `pc.wrapping_add(1)`. -/
def Cpu.inc_pc (c : Cpu) : Cpu := { c with pc := (c.pc + 1) % 65536 }

/-- `Cpu::read_byte`: a bus read threaded through the CPU. -/
def Cpu.read_byte (c : Cpu) (addr : Nat) : Option (Nat × Cpu) :=
  (c.bus.read addr).map fun r => (r.1, { c with bus := r.2 })

/-- `Cpu::read_word` (src/src/cpu/cpu.rs lines 447-451). -/
def Cpu.read_word (c : Cpu) (addr : Nat) : Option (Nat × Cpu) := do
  let (lo, c) ← c.read_byte addr
  let (hi, c) ← c.read_byte (addr + 1)
  some ((hi <<< 8) ||| lo, c)

/-- `Cpu::stack_pop` (src/src/cpu/cpu.rs lines 478-482). -/
def Cpu.stack_pop (c : Cpu) : Option (Nat × Cpu) :=
  let c := { c with sp := (c.sp + 1) % 256 }
  c.read_byte (0x0100 ||| c.sp)

/-- `Cpu::stack_push` (src/src/cpu/cpu.rs lines 484-488). -/
def Cpu.stack_push (c : Cpu) (value : Nat) : Option Cpu :=
  (c.bus.write (0x0100 ||| (c.sp % 256)) value).map fun b =>
    { c with bus := b, sp := (c.sp + 256 - 1) % 256 }

/-- `Cpu::fetch_operand` (src/src/cpu/cpu.rs lines 430-441): read the byte at
the pre-increment `pc` through the bus. -/
def Cpu.fetch_operand (c : Cpu) : Option (Nat × Cpu) :=
  let addr := c.pc
  let c := c.inc_pc
  (c.bus.read addr).map fun r => (r.1, { c with bus := r.2 })

/-- `Cpu::fetch_operand_addr` (src/src/cpu/cpu.rs lines 269-428): resolve the
operand address for a mode, returning `(addr, page-cross penalty, cpu)`.
The Relative arm computes `(pc as i16 + offset as i16) as u16`, which is
`pc + sign-extended offset` modulo 65536, and charges the penalty whenever
the target page differs from the incremented `pc`'s page, taken or not. -/
def Cpu.fetch_operand_addr (c : Cpu) (mode : AddressingMode) : Option (Nat × Nat × Cpu) :=
  match mode with
  | .Absolute => do
    let (lo, c) ← c.read_byte c.pc
    let c := c.inc_pc
    let (hi, c) ← c.read_byte c.pc
    let c := c.inc_pc
    some ((hi <<< 8) ||| lo, 0, c)
  | .AbsoluteX => do
    let (lo, c) ← c.read_byte c.pc
    let c := c.inc_pc
    let (hi, c) ← c.read_byte c.pc
    let c := c.inc_pc
    let base_addr := (hi <<< 8) ||| lo
    let addr := (base_addr + c.x % 256) % 65536
    some (addr, c.page_boundary_cycle addr base_addr, c)
  | .AbsoluteY => do
    let (lo, c) ← c.read_byte c.pc
    let c := c.inc_pc
    let (hi, c) ← c.read_byte c.pc
    let c := c.inc_pc
    let base_addr := (hi <<< 8) ||| lo
    let addr := (base_addr + c.y % 256) % 65536
    some (addr, c.page_boundary_cycle addr base_addr, c)
  | .Accumulator => some (0, 0, c)
  | .Immediate => some (0, 0, c)
  | .Implied => some (0, 0, c)
  | .Indirect => do
    let (addr_lo, c) ← c.read_byte c.pc
    let c := c.inc_pc
    let (addr_hi, c) ← c.read_byte c.pc
    let c := c.inc_pc
    let addr := (addr_hi <<< 8) ||| addr_lo
    let hi_addr := if addr_lo &&& 0xFF = 0xFF then addr &&& 0xFF00 else (addr + 1) % 65536
    let (target_lo, c) ← c.read_byte addr
    let (target_hi, c) ← c.read_byte hi_addr
    some ((target_hi <<< 8) ||| target_lo, 0, c)
  | .IndirectX => do
    let (zp_addr, c) ← c.read_byte c.pc
    let c := c.inc_pc
    let effective_zp := (zp_addr + c.x % 256) % 256
    let (target_lo, c) ← c.read_byte effective_zp
    let (target_hi, c) ← c.read_byte ((effective_zp + 1) % 256)
    some ((target_hi <<< 8) ||| target_lo, 0, c)
  | .IndirectY => do
    let (zp_addr, c) ← c.read_byte c.pc
    let c := c.inc_pc
    let (base_lo, c) ← c.read_byte zp_addr
    let (base_hi, c) ← c.read_byte ((zp_addr + 1) % 256)
    let base_addr := (base_hi <<< 8) ||| base_lo
    let final_addr := (base_addr + c.y % 256) % 65536
    some (final_addr, c.page_boundary_cycle final_addr base_addr, c)
  | .Relative => do
    let (offset, c) ← c.read_byte c.pc
    let c := c.inc_pc
    let signed : Int := if offset % 256 < 128 then (offset % 256 : Nat) else (offset % 256 : Nat) - 256
    let addr := (((c.pc % 65536 : Nat) : Int) + signed).emod 65536 |>.toNat
    some (addr, c.page_boundary_cycle c.pc addr, c)
  | .ZeroPage => do
    let (addr, c) ← c.read_byte c.pc
    let c := c.inc_pc
    some (addr, 0, c)
  | .ZeroPageX => do
    let (addr, c) ← c.read_byte c.pc
    let c := c.inc_pc
    some ((addr + c.x % 256) &&& 0xFF, 0, c)
  | .ZeroPageY => do
    let (addr, c) ← c.read_byte c.pc
    let c := c.inc_pc
    some ((addr + c.y % 256) &&& 0xFF, 0, c)

/-- Iterate `Ppu::step` `n` times (the reset warm-up loop ignores NMI). -/
def ppuSteps : Nat → Ppu → Option Ppu
  | 0, p => some p
  | n + 1, p => (p.step).bind (ppuSteps n)

/-- `Cpu::reset` (src/src/cpu/cpu.rs lines 211-220). -/
def Cpu.reset (c : Cpu) : Option Cpu := do
  let c := { c with bus := { c.bus with reset := true } }
  let (w, c) ← c.read_word 0xFFFC
  let c := { c with pc := w }
  let c := { c with sp := (c.sp + 256 - 3) % 256 }
  let c := { c with bus := { c.bus with cycles := 7 } }
  let c := c.set_flag .InterruptDisable true
  let p ← ppuSteps (7 * 3) c.bus.ppu
  some { c with bus := { c.bus with ppu := p } }

/-- `Cpu::interrupt` (src/src/cpu/cpu.rs lines 223-256).  IRQ is a no-op. -/
def Cpu.interrupt (c : Cpu) : Interrupt → Option Cpu
  | .BRK => do
    let c := { c with pc := (c.pc + 1) % 65536 }
    let c ← c.stack_push ((c.pc % 65536) >>> 8)
    let c ← c.stack_push (c.pc % 256)
    let c := (c.set_flag .Break true).set_flag .BreakIrq true
    let c ← c.stack_push c.p
    let c := (c.set_flag .Break false).set_flag .InterruptDisable true
    let (w, c) ← c.read_word 0xFFFE
    some { c with pc := w }
  | .IRQ => some c
  | .NMI => do
    let c ← c.stack_push ((c.pc % 65536) >>> 8)
    let c ← c.stack_push (c.pc % 256)
    let c := (c.set_flag .Break false).set_flag .BreakIrq true
    let c ← c.stack_push c.p
    let c := c.set_flag .InterruptDisable true
    let (w, c) ← c.read_word 0xFFFA
    some { c with pc := w }
  | .RESET => c.reset

/-- `lda` (src/src/cpu/instructions.rs lines 290-302). -/
def Instr.lda (cpu : Cpu) (mode : AddressingMode) : Option (Cpu × Nat) := do
  let (data, cycles, cpu) ←
    if mode = AddressingMode.Immediate then do
      let (d, c) ← cpu.fetch_operand
      some (d, 0, c)
    else do
      let (addr, cycles, c) ← cpu.fetch_operand_addr mode
      let (d, c) ← c.read_byte addr
      some (d, cycles, c)
  let cpu := { cpu with a := data }
  some (cpu.set_zero_negative_flag cpu.a, cycles)

/-- `sta`. -/
def Instr.sta (cpu : Cpu) (mode : AddressingMode) : Option (Cpu × Nat) := do
  let (addr, cycles, c) ← cpu.fetch_operand_addr mode
  let b ← c.bus.write addr c.a
  some ({ c with bus := b }, cycles)

/-- `ldx`. -/
def Instr.ldx (cpu : Cpu) (mode : AddressingMode) : Option (Cpu × Nat) := do
  let (data, cycles, cpu) ←
    if mode = AddressingMode.Immediate then do
      let (d, c) ← cpu.fetch_operand
      some (d, 0, c)
    else do
      let (addr, cycles, c) ← cpu.fetch_operand_addr mode
      let (d, c) ← c.read_byte addr
      some (d, cycles, c)
  let cpu := { cpu with x := data }
  some (cpu.set_zero_negative_flag cpu.x, cycles)

/-- `stx`. -/
def Instr.stx (cpu : Cpu) (mode : AddressingMode) : Option (Cpu × Nat) := do
  let (addr, cycles, c) ← cpu.fetch_operand_addr mode
  let b ← c.bus.write addr c.x
  some ({ c with bus := b }, cycles)

/-- `ldy`. -/
def Instr.ldy (cpu : Cpu) (mode : AddressingMode) : Option (Cpu × Nat) := do
  let (data, cycles, cpu) ←
    if mode = AddressingMode.Immediate then do
      let (d, c) ← cpu.fetch_operand
      some (d, 0, c)
    else do
      let (addr, cycles, c) ← cpu.fetch_operand_addr mode
      let (d, c) ← c.read_byte addr
      some (d, cycles, c)
  let cpu := { cpu with y := data }
  some (cpu.set_zero_negative_flag cpu.y, cycles)

/-- `sty`. -/
def Instr.sty (cpu : Cpu) (mode : AddressingMode) : Option (Cpu × Nat) := do
  let (addr, cycles, c) ← cpu.fetch_operand_addr mode
  let b ← c.bus.write addr c.y
  some ({ c with bus := b }, cycles)

/-- `tax`. -/
def Instr.tax (cpu : Cpu) (_mode : AddressingMode) : Option (Cpu × Nat) :=
  let cpu := { cpu with x := cpu.a }
  some (cpu.set_zero_negative_flag cpu.a, 0)

/-- `txa`. -/
def Instr.txa (cpu : Cpu) (_mode : AddressingMode) : Option (Cpu × Nat) :=
  let cpu := { cpu with a := cpu.x }
  some (cpu.set_zero_negative_flag cpu.x, 0)

/-- `tay`. -/
def Instr.tay (cpu : Cpu) (_mode : AddressingMode) : Option (Cpu × Nat) :=
  let cpu := { cpu with y := cpu.a }
  some (cpu.set_zero_negative_flag cpu.a, 0)

/-- `tya`. -/
def Instr.tya (cpu : Cpu) (_mode : AddressingMode) : Option (Cpu × Nat) :=
  let cpu := { cpu with a := cpu.y }
  some (cpu.set_zero_negative_flag cpu.y, 0)

/-- `adc` (src/src/cpu/instructions.rs lines 372-388): binary add with the
documented sign-change overflow rule. -/
def Instr.adc (cpu : Cpu) (mode : AddressingMode) : Option (Cpu × Nat) := do
  let (data, cycles, cpu) ←
    if mode = AddressingMode.Immediate then do
      let (d, c) ← cpu.fetch_operand
      some (d, 0, c)
    else do
      let (addr, cycles, c) ← cpu.fetch_operand_addr mode
      let (d, c) ← c.read_byte addr
      some (d, cycles, c)
  let result := (cpu.a % 256) + (data % 256) + cpu.get_carry_bit
  let final_result := result % 256
  let cpu := cpu.set_flag .Carry (result > 0xFF)
  let cpu := cpu.set_flag .Zero (final_result = 0)
  let cpu := cpu.set_flag .Negative (final_result &&& 0x80 ≠ 0)
  let cpu := cpu.set_flag .Overflow (((cpu.a ^^^ final_result) &&& (data ^^^ final_result) &&& 0x80) ≠ 0)
  some ({ cpu with a := final_result }, cycles)

/-- `sbc` (src/src/cpu/instructions.rs lines 390-422): borrow is the
complement of carry; carry out is set when no borrow is needed. -/
def Instr.sbc (cpu : Cpu) (mode : AddressingMode) : Option (Cpu × Nat) := do
  let (data, total_cycles, cpu) ←
    if mode = AddressingMode.Immediate then do
      let (d, c) ← cpu.fetch_operand
      some (d, 0, c)
    else do
      let (addr, cycles, c) ← cpu.fetch_operand_addr mode
      let (d, c) ← c.read_byte addr
      some (d, cycles, c)
  let borrow := 1 - cpu.get_carry_bit
  let result := ((cpu.a % 256) + 512 - (data % 256) - borrow) % 256
  let cpu := cpu.set_flag .Carry (((cpu.a % 256 : Nat) : Int) - ((data % 256 : Nat) : Int) - (borrow : Int) ≥ 0)
  let cpu := cpu.set_zero_negative_flag result
  let cpu := cpu.set_flag .Overflow (((cpu.a ^^^ result) &&& (0xFF ^^^ (data ^^^ result)) &&& 0x80) ≠ 0)
  some ({ cpu with a := result }, total_cycles)

/-- `inc`. -/
def Instr.inc (cpu : Cpu) (mode : AddressingMode) : Option (Cpu × Nat) := do
  let (addr, cycles, c) ← cpu.fetch_operand_addr mode
  let (data, c) ← c.read_byte addr
  let result := (data + 1) % 256
  let c := c.set_zero_negative_flag result
  let b ← c.bus.write addr result
  some ({ c with bus := b }, cycles)

/-- `dec`. -/
def Instr.dec (cpu : Cpu) (mode : AddressingMode) : Option (Cpu × Nat) := do
  let (addr, cycles, c) ← cpu.fetch_operand_addr mode
  let (data, c) ← c.read_byte addr
  let result := (data + 255) % 256
  let c := c.set_zero_negative_flag result
  let b ← c.bus.write addr result
  some ({ c with bus := b }, cycles)

/-- `inx`. -/
def Instr.inx (cpu : Cpu) (_mode : AddressingMode) : Option (Cpu × Nat) :=
  let result := (cpu.x + 1) % 256
  let cpu := cpu.set_zero_negative_flag result
  some ({ cpu with x := result }, 0)

/-- `dex`. -/
def Instr.dex (cpu : Cpu) (_mode : AddressingMode) : Option (Cpu × Nat) :=
  let result := (cpu.x + 255) % 256
  let cpu := cpu.set_zero_negative_flag result
  some ({ cpu with x := result }, 0)

/-- `iny`. -/
def Instr.iny (cpu : Cpu) (_mode : AddressingMode) : Option (Cpu × Nat) :=
  let result := (cpu.y + 1) % 256
  let cpu := cpu.set_zero_negative_flag result
  some ({ cpu with y := result }, 0)

/-- `dey`. -/
def Instr.dey (cpu : Cpu) (_mode : AddressingMode) : Option (Cpu × Nat) :=
  let result := (cpu.y + 255) % 256
  let cpu := cpu.set_zero_negative_flag result
  some ({ cpu with y := result }, 0)

/-- `asl`. -/
def Instr.asl (cpu : Cpu) (mode : AddressingMode) : Option (Cpu × Nat) :=
  if mode = AddressingMode.Accumulator then
    let cpu := cpu.set_flag .Carry (cpu.a &&& 0x80 ≠ 0)
    let result := (cpu.a <<< 1) % 256
    let cpu := cpu.set_zero_negative_flag result
    some ({ cpu with a := result }, 0)
  else do
    let (addr, cycles, c) ← cpu.fetch_operand_addr mode
    let (data, c) ← c.read_byte addr
    let c := c.set_flag .Carry (data &&& 0x80 ≠ 0)
    let result := (data <<< 1) % 256
    let c := c.set_zero_negative_flag result
    let b ← c.bus.write addr result
    some ({ c with bus := b }, cycles)

/-- `lsr`. -/
def Instr.lsr (cpu : Cpu) (mode : AddressingMode) : Option (Cpu × Nat) :=
  if mode = AddressingMode.Accumulator then
    let cpu := cpu.set_flag .Carry (cpu.a &&& 0x1 ≠ 0)
    let result := (cpu.a % 256) >>> 1
    let cpu := cpu.set_zero_negative_flag result
    some ({ cpu with a := result }, 0)
  else do
    let (addr, cycles, c) ← cpu.fetch_operand_addr mode
    let (data, c) ← c.read_byte addr
    let c := c.set_flag .Carry (data &&& 0x1 ≠ 0)
    let result := (data % 256) >>> 1
    let b ← c.bus.write addr result
    let c := { c with bus := b }
    let c := c.set_zero_negative_flag result
    some (c, cycles)

/-- `rol`. -/
def Instr.rol (cpu : Cpu) (mode : AddressingMode) : Option (Cpu × Nat) :=
  if mode = AddressingMode.Accumulator then
    let data := cpu.a
    let old_carry := if cpu.p &&& 0x1 ≠ 0 then 1 else 0
    let cpu := cpu.set_flag .Carry (data &&& 0x80 ≠ 0)
    let result := (((data <<< 1) ||| old_carry)) % 256
    let cpu := cpu.set_flag .Zero (result = 0)
    let cpu := cpu.set_flag .Negative (result &&& 0x80 ≠ 0)
    some ({ cpu with a := result }, 0)
  else do
    let (addr, cycles, c) ← cpu.fetch_operand_addr mode
    let (data, c) ← c.read_byte addr
    let old_carry := if c.p &&& 0x1 ≠ 0 then 1 else 0
    let c := c.set_flag .Carry (data &&& 0x80 ≠ 0)
    let result := (((data <<< 1) ||| old_carry)) % 256
    let c := c.set_flag .Zero (result = 0)
    let c := c.set_flag .Negative (result &&& 0x80 ≠ 0)
    let b ← c.bus.write addr result
    some ({ c with bus := b }, cycles)

/-- `ror`. -/
def Instr.ror (cpu : Cpu) (mode : AddressingMode) : Option (Cpu × Nat) :=
  if mode = AddressingMode.Accumulator then
    let data := cpu.a
    let old_carry := if cpu.p &&& 0x1 ≠ 0 then 0x80 else 0
    let cpu := cpu.set_flag .Carry (data &&& 0x1 ≠ 0)
    let result := ((data % 256) >>> 1) ||| old_carry
    let cpu := cpu.set_flag .Zero (result = 0)
    let cpu := cpu.set_flag .Negative (result &&& 0x80 ≠ 0)
    some ({ cpu with a := result }, 0)
  else do
    let (addr, cycles, c) ← cpu.fetch_operand_addr mode
    let (data, c) ← c.read_byte addr
    let old_carry := if c.p &&& 0x1 ≠ 0 then 0x80 else 0
    let c := c.set_flag .Carry (data &&& 0x1 ≠ 0)
    let result := ((data % 256) >>> 1) ||| old_carry
    let c := c.set_flag .Zero (result = 0)
    let c := c.set_flag .Negative (result &&& 0x80 ≠ 0)
    let b ← c.bus.write addr result
    some ({ c with bus := b }, cycles)

/-- `and`. -/
def Instr.and (cpu : Cpu) (mode : AddressingMode) : Option (Cpu × Nat) := do
  let (data, cycles, cpu) ←
    if mode = AddressingMode.Immediate then do
      let (d, c) ← cpu.fetch_operand
      some (d, 0, c)
    else do
      let (addr, cycles, c) ← cpu.fetch_operand_addr mode
      let (d, c) ← c.read_byte addr
      some (d, cycles, c)
  let result := cpu.a &&& data
  let cpu := cpu.set_zero_negative_flag result
  some ({ cpu with a := result }, cycles)

/-- `ora`. -/
def Instr.ora (cpu : Cpu) (mode : AddressingMode) : Option (Cpu × Nat) := do
  let (data, total_cycles, cpu) ←
    if mode = AddressingMode.Immediate then do
      let (d, c) ← cpu.fetch_operand
      some (d, 0, c)
    else do
      let (addr, cycles, c) ← cpu.fetch_operand_addr mode
      let (d, c) ← c.read_byte addr
      some (d, cycles, c)
  let result := (cpu.a ||| data) % 256
  let cpu := cpu.set_flag .Zero (result = 0)
  let cpu := cpu.set_flag .Negative (result &&& 0x80 ≠ 0)
  some ({ cpu with a := result }, total_cycles)

/-- `eor`. -/
def Instr.eor (cpu : Cpu) (mode : AddressingMode) : Option (Cpu × Nat) := do
  let (data, total_cycles, cpu) ←
    if mode = AddressingMode.Immediate then do
      let (d, c) ← cpu.fetch_operand
      some (d, 0, c)
    else do
      let (addr, cycles, c) ← cpu.fetch_operand_addr mode
      let (d, c) ← c.read_byte addr
      some (d, cycles, c)
  let result := (cpu.a ^^^ data) % 256
  let cpu := cpu.set_flag .Zero (result = 0)
  let cpu := cpu.set_flag .Negative (result &&& 0x80 ≠ 0)
  some ({ cpu with a := result }, total_cycles)

/-- `bit`. -/
def Instr.bit (cpu : Cpu) (mode : AddressingMode) : Option (Cpu × Nat) := do
  let (addr, cycles, c) ← cpu.fetch_operand_addr mode
  let (data, c) ← c.read_byte addr
  let result := c.a &&& data
  let c := c.set_flag .Zero (result = 0)
  let c := c.set_flag .Overflow (data &&& 0x40 ≠ 0)
  let c := c.set_flag .Negative (data &&& 0x80 ≠ 0)
  some (c, cycles)

/-- `cmp` (src/src/cpu/instructions.rs lines 625-640): the N flag comes from
`(a as i16 - data as i16) as u8`. -/
def Instr.cmp (cpu : Cpu) (mode : AddressingMode) : Option (Cpu × Nat) := do
  let (data, total_cycles, cpu) ←
    if mode = AddressingMode.Immediate then do
      let (d, c) ← cpu.fetch_operand
      some (d, 0, c)
    else do
      let (addr, cycles, c) ← cpu.fetch_operand_addr mode
      let (d, c) ← c.read_byte addr
      some (d, cycles, c)
  let result := ((cpu.a % 256) + 256 - (data % 256)) % 256
  let cpu := cpu.set_flag .Carry (cpu.a % 256 ≥ data % 256)
  let cpu := cpu.set_flag .Zero (cpu.a % 256 = data % 256)
  let cpu := cpu.set_flag .Negative (result &&& 0x80 ≠ 0)
  some (cpu, total_cycles)

/-- `cpx`. -/
def Instr.cpx (cpu : Cpu) (mode : AddressingMode) : Option (Cpu × Nat) := do
  let (data, total_cycles, cpu) ←
    if mode = AddressingMode.Immediate then do
      let (d, c) ← cpu.fetch_operand
      some (d, 0, c)
    else do
      let (addr, cycles, c) ← cpu.fetch_operand_addr mode
      let (d, c) ← c.read_byte addr
      some (d, cycles, c)
  let result := ((cpu.x % 256) + 256 - (data % 256)) % 256
  let cpu := cpu.set_flag .Carry (cpu.x % 256 ≥ data % 256)
  let cpu := cpu.set_flag .Zero (cpu.x % 256 = data % 256)
  let cpu := cpu.set_flag .Negative (result &&& 0x80 ≠ 0)
  some (cpu, total_cycles)

/-- `cpy`. -/
def Instr.cpy (cpu : Cpu) (mode : AddressingMode) : Option (Cpu × Nat) := do
  let (data, total_cycles, cpu) ←
    if mode = AddressingMode.Immediate then do
      let (d, c) ← cpu.fetch_operand
      some (d, 0, c)
    else do
      let (addr, cycles, c) ← cpu.fetch_operand_addr mode
      let (d, c) ← c.read_byte addr
      some (d, cycles, c)
  let result := ((cpu.y % 256) + 256 - (data % 256)) % 256
  let cpu := cpu.set_flag .Carry (cpu.y % 256 ≥ data % 256)
  let cpu := cpu.set_flag .Zero (cpu.y % 256 = data % 256)
  let cpu := cpu.set_flag .Negative (result &&& 0x80 ≠ 0)
  some (cpu, total_cycles)

/-- `branch` (src/src/cpu/instructions.rs lines 675-683): resolves the
relative target, keeps the page-cross penalty whether or not the branch is
taken, and adds one cycle when taken. -/
def Instr.branch (cpu : Cpu) (mode : AddressingMode) (condition : Bool) : Option (Cpu × Nat) := do
  let (addr, cycles, c) ← cpu.fetch_operand_addr mode
  if condition then some ({ c with pc := addr }, cycles + 1)
  else some (c, cycles)

/-- `bcc`. -/
def Instr.bcc (cpu : Cpu) (mode : AddressingMode) : Option (Cpu × Nat) :=
  Instr.branch cpu mode (cpu.p &&& 0x1 = 0)

/-- `bcs`. -/
def Instr.bcs (cpu : Cpu) (mode : AddressingMode) : Option (Cpu × Nat) :=
  Instr.branch cpu mode (cpu.p &&& 0x1 ≠ 0)

/-- `beq`. -/
def Instr.beq (cpu : Cpu) (mode : AddressingMode) : Option (Cpu × Nat) :=
  Instr.branch cpu mode (cpu.p &&& 0x2 ≠ 0)

/-- `bne`. -/
def Instr.bne (cpu : Cpu) (mode : AddressingMode) : Option (Cpu × Nat) :=
  Instr.branch cpu mode (cpu.p &&& 0x2 = 0)

/-- `bpl`. -/
def Instr.bpl (cpu : Cpu) (mode : AddressingMode) : Option (Cpu × Nat) :=
  Instr.branch cpu mode (cpu.p &&& 0x80 = 0)

/-- `bmi`. -/
def Instr.bmi (cpu : Cpu) (mode : AddressingMode) : Option (Cpu × Nat) :=
  Instr.branch cpu mode (cpu.p &&& 0x80 ≠ 0)

/-- `bvc`. -/
def Instr.bvc (cpu : Cpu) (mode : AddressingMode) : Option (Cpu × Nat) :=
  Instr.branch cpu mode (cpu.p &&& 0x40 = 0)

/-- `bvs`. -/
def Instr.bvs (cpu : Cpu) (mode : AddressingMode) : Option (Cpu × Nat) :=
  Instr.branch cpu mode (cpu.p &&& 0x40 ≠ 0)

/-- `jmp`. -/
def Instr.jmp (cpu : Cpu) (mode : AddressingMode) : Option (Cpu × Nat) := do
  let (addr, cycles, c) ← cpu.fetch_operand_addr mode
  some ({ c with pc := addr }, cycles)

/-- `jsr`. -/
def Instr.jsr (cpu : Cpu) (mode : AddressingMode) : Option (Cpu × Nat) := do
  let (target_address, cycles, c) ← cpu.fetch_operand_addr mode
  let return_addr := (c.pc + 65536 - 1) % 65536
  let c ← c.stack_push (return_addr >>> 8)
  let c ← c.stack_push (return_addr % 256)
  some ({ c with pc := target_address }, cycles)

/-- `rts`. -/
def Instr.rts (cpu : Cpu) (_mode : AddressingMode) : Option (Cpu × Nat) := do
  let (lo, c) ← cpu.stack_pop
  let (hi, c) ← c.stack_pop
  let return_address := (hi <<< 8) ||| lo
  some ({ c with pc := (return_address + 1) % 65536 }, 0)

/-- `brk`. -/
def Instr.brk (cpu : Cpu) (_mode : AddressingMode) : Option (Cpu × Nat) := do
  let c ← cpu.interrupt .BRK
  some (c, 0)

/-- `rti`. -/
def Instr.rti (cpu : Cpu) (_mode : AddressingMode) : Option (Cpu × Nat) := do
  let (pv, c) ← cpu.stack_pop
  let c := { c with p := pv }
  let c := c.set_flag .Break false
  let (lo, c) ← c.stack_pop
  let (hi, c) ← c.stack_pop
  some ({ c with pc := (hi <<< 8) ||| lo }, 0)

/-- `pha`. -/
def Instr.pha (cpu : Cpu) (_mode : AddressingMode) : Option (Cpu × Nat) := do
  let addr := 0x0100 + cpu.sp % 256
  let b ← cpu.bus.write addr cpu.a
  some ({ cpu with bus := b, sp := (cpu.sp + 255) % 256 }, 0)

/-- `pla`. -/
def Instr.pla (cpu : Cpu) (_mode : AddressingMode) : Option (Cpu × Nat) := do
  let cpu := { cpu with sp := (cpu.sp + 1) % 256 }
  let addr := 0x0100 + cpu.sp
  let (data, c) ← cpu.read_byte addr
  let c := c.set_flag .Zero (data = 0)
  let c := c.set_flag .Negative (data &&& 0x80 ≠ 0)
  some ({ c with a := data }, 0)

/-- `php`: pushes P with B and U forced to 1. -/
def Instr.php (cpu : Cpu) (_mode : AddressingMode) : Option (Cpu × Nat) := do
  let addr := 0x0100 + cpu.sp % 256
  let value := cpu.p ||| 0x30
  let b ← cpu.bus.write addr value
  some ({ cpu with bus := b, sp := (cpu.sp + 255) % 256 }, 0)

/-- `plp` (src/src/cpu/instructions.rs lines 793-806): restores the flags
from the stack, but latches the I bit into `update_interrupt_disable`
instead of applying it. -/
def Instr.plp (cpu : Cpu) (_mode : AddressingMode) : Option (Cpu × Nat) := do
  let cpu := { cpu with sp := (cpu.sp + 1) % 256 }
  let addr := 0x0100 + cpu.sp
  let (data, c) ← cpu.read_byte addr
  let c := c.set_flag .Carry (data &&& 0x1 ≠ 0)
  let c := c.set_flag .Zero (data &&& 0x2 ≠ 0)
  let c := { c with update_interrupt_disable := (true, data &&& 0x4) }
  let c := c.set_flag .Break false
  let c := c.set_flag .Decimal (data &&& 0x8 ≠ 0)
  let c := c.set_flag .Overflow (data &&& 0x40 ≠ 0)
  let c := c.set_flag .Negative (data &&& 0x80 ≠ 0)
  some (c, 0)

/-- `txs`. -/
def Instr.txs (cpu : Cpu) (_mode : AddressingMode) : Option (Cpu × Nat) :=
  some ({ cpu with sp := cpu.x }, 0)

/-- `tsx`. -/
def Instr.tsx (cpu : Cpu) (_mode : AddressingMode) : Option (Cpu × Nat) :=
  let cpu := { cpu with x := cpu.sp }
  let cpu := cpu.set_flag .Zero (cpu.sp = 0)
  let cpu := cpu.set_flag .Negative (cpu.sp &&& 0x80 ≠ 0)
  some (cpu, 0)

/-- `clc`. -/
def Instr.clc (cpu : Cpu) (_mode : AddressingMode) : Option (Cpu × Nat) :=
  some (cpu.set_flag .Carry false, 0)

/-- `sec`. -/
def Instr.sec (cpu : Cpu) (_mode : AddressingMode) : Option (Cpu × Nat) :=
  some (cpu.set_flag .Carry true, 0)

/-- `cli` (src/src/cpu/instructions.rs lines 831-834): clears the I flag
directly, without going through `update_interrupt_disable`. -/
def Instr.cli (cpu : Cpu) (_mode : AddressingMode) : Option (Cpu × Nat) :=
  some (cpu.set_flag .InterruptDisable false, 0)

/-- `sei` (src/src/cpu/instructions.rs lines 836-839): latches the deferred
I update. -/
def Instr.sei (cpu : Cpu) (_mode : AddressingMode) : Option (Cpu × Nat) :=
  some ({ cpu with update_interrupt_disable := (true, 1) }, 0)

/-- `cld`. -/
def Instr.cld (cpu : Cpu) (_mode : AddressingMode) : Option (Cpu × Nat) :=
  some (cpu.set_flag .Decimal false, 0)

/-- `sed`. -/
def Instr.sed (cpu : Cpu) (_mode : AddressingMode) : Option (Cpu × Nat) :=
  some (cpu.set_flag .Decimal true, 0)

/-- `clv`. -/
def Instr.clv (cpu : Cpu) (_mode : AddressingMode) : Option (Cpu × Nat) :=
  some (cpu.set_flag .Overflow false, 0)

/-- `nop` (also the unofficial multi-byte NOPs). -/
def Instr.nop (cpu : Cpu) (mode : AddressingMode) : Option (Cpu × Nat) :=
  if mode = AddressingMode.Implied then some (cpu, 0)
  else if mode = AddressingMode.Immediate then do
    let (_d, c) ← cpu.fetch_operand
    some (c, 0)
  else do
    let (_addr, cycles, c) ← cpu.fetch_operand_addr mode
    some (c, cycles)

/-- `jam`: modelled as a no-op consuming 0 cycles. -/
def Instr.jam (cpu : Cpu) (_mode : AddressingMode) : Option (Cpu × Nat) :=
  some (cpu, 0)

/-- `slo`. -/
def Instr.slo (cpu : Cpu) (mode : AddressingMode) : Option (Cpu × Nat) := do
  let (addr, cycles, c) ← cpu.fetch_operand_addr mode
  let (data, c) ← c.read_byte addr
  let c := c.set_flag .Carry (data &&& 0x80 ≠ 0)
  let data := (data <<< 1) % 256
  let b ← c.bus.write addr data
  let c := { c with bus := b }
  let c := { c with a := (c.a ||| data) % 256 }
  let c := c.set_flag .Zero (c.a = 0)
  let c := c.set_flag .Negative (c.a &&& 0x80 ≠ 0)
  some (c, cycles)

/-- `ane` (src/src/cpu/instructions.rs lines 886-892): unstable opcode fixed
to A ← 0, Z set, N clear; it does not consume its immediate operand. -/
def Instr.ane (cpu : Cpu) (_mode : AddressingMode) : Option (Cpu × Nat) :=
  let cpu := { cpu with a := 0 }
  let cpu := cpu.set_flag .Zero true
  let cpu := cpu.set_flag .Negative false
  some (cpu, 0)

/-- `anc`. -/
def Instr.anc (cpu : Cpu) (_mode : AddressingMode) : Option (Cpu × Nat) := do
  let (operand, c) ← cpu.fetch_operand
  let c := { c with a := c.a &&& operand }
  let c := c.set_flag .Carry (c.a &&& 0x80 ≠ 0)
  let c := c.set_flag .Zero (c.a = 0)
  let c := c.set_flag .Negative (c.a &&& 0x80 ≠ 0)
  some (c, 0)

/-- `sre`. -/
def Instr.sre (cpu : Cpu) (mode : AddressingMode) : Option (Cpu × Nat) := do
  let (addr, cycles, c) ← cpu.fetch_operand_addr mode
  let (data, c) ← c.read_byte addr
  let c := c.set_flag .Carry (data &&& 0x01 ≠ 0)
  let data := (data % 256) >>> 1
  let b ← c.bus.write addr data
  let c := { c with bus := b }
  let c := { c with a := (c.a ^^^ data) % 256 }
  let c := c.set_flag .Zero (c.a = 0)
  let c := c.set_flag .Negative (c.a &&& 0x80 ≠ 0)
  some (c, cycles)

/-- `rla`. -/
def Instr.rla (cpu : Cpu) (mode : AddressingMode) : Option (Cpu × Nat) := do
  let (addr, cycles, c) ← cpu.fetch_operand_addr mode
  let (data, c) ← c.read_byte addr
  let carry_in := c.p &&& 0x1
  let c := c.set_flag .Carry (data &&& 0x80 ≠ 0)
  let data := ((data <<< 1) ||| carry_in) % 256
  let b ← c.bus.write addr data
  let c := { c with bus := b }
  let c := { c with a := c.a &&& data }
  let c := c.set_flag .Zero (c.a = 0)
  let c := c.set_flag .Negative (c.a &&& 0x80 ≠ 0)
  some (c, cycles)

/-- `sax`. -/
def Instr.sax (cpu : Cpu) (mode : AddressingMode) : Option (Cpu × Nat) := do
  let (addr, cycles, c) ← cpu.fetch_operand_addr mode
  let b ← c.bus.write addr (c.a &&& c.x)
  some ({ c with bus := b }, cycles)

/-- `rra`: ROR on memory then ADC. -/
def Instr.rra (cpu : Cpu) (mode : AddressingMode) : Option (Cpu × Nat) := do
  let (addr, extra_cycles, c) ← cpu.fetch_operand_addr mode
  let (data, c) ← c.read_byte addr
  let old_carry := c.get_carry_bit
  let c := c.set_flag .Carry (data &&& 0x01 ≠ 0)
  let data := ((data % 256) >>> 1) ||| (old_carry <<< 7)
  let b ← c.bus.write addr data
  let c := { c with bus := b }
  let carry_in := c.get_carry_bit
  let temp := (c.a % 256) + data + carry_in
  let c := c.set_flag .Carry (temp > 0xFF)
  let result := temp % 256
  let c := c.set_flag .Overflow (((c.a ^^^ result) &&& (data ^^^ result) &&& 0x80) ≠ 0)
  let c := { c with a := result }
  some (c.set_zero_negative_flag result, extra_cycles)

/-- `dcp`. -/
def Instr.dcp (cpu : Cpu) (mode : AddressingMode) : Option (Cpu × Nat) := do
  let (addr, cycles, c) ← cpu.fetch_operand_addr mode
  let (data, c) ← c.read_byte addr
  let data := (data + 255) % 256
  let b ← c.bus.write addr data
  let c := { c with bus := b }
  let result := ((c.a % 256) + 256 - data) % 256
  let c := c.set_flag .Carry (c.a % 256 ≥ data)
  let c := c.set_flag .Zero (result = 0)
  let c := c.set_flag .Negative (result &&& 0x80 ≠ 0)
  some (c, cycles)

/-- `isc`: INC on memory then SBC. -/
def Instr.isc (cpu : Cpu) (mode : AddressingMode) : Option (Cpu × Nat) := do
  let (addr, extra_cycles, c) ← cpu.fetch_operand_addr mode
  let (data, c) ← c.read_byte addr
  let data := (data + 1) % 256
  let b ← c.bus.write addr data
  let c := { c with bus := b }
  let carry := c.get_carry_bit
  let value := 0xFF ^^^ data
  let temp := (c.a % 256) + value + carry
  let c := c.set_flag .Carry (temp > 0xFF)
  let result := temp % 256
  let c := c.set_flag .Overflow (((c.a ^^^ result) &&& (c.a ^^^ data) &&& 0x80) ≠ 0)
  let c := { c with a := result }
  some (c.set_zero_negative_flag result, extra_cycles)

/-- `lxa` (src/src/cpu/instructions.rs lines 1008-1013): implemented in the
source as `lda` followed by `tax`. -/
def Instr.lxa (cpu : Cpu) (mode : AddressingMode) : Option (Cpu × Nat) := do
  let (c, cy1) ← Instr.lda cpu mode
  let (c, cy2) ← Instr.tax c mode
  some (c, cy1 + cy2)

/-- `las`. -/
def Instr.las (cpu : Cpu) (mode : AddressingMode) : Option (Cpu × Nat) := do
  let (addr, cycles, c) ← cpu.fetch_operand_addr mode
  let (data, c) ← c.read_byte addr
  let result := data &&& c.sp
  let c := { c with a := result, x := result, sp := result }
  let c := c.set_flag .Zero (result = 0)
  let c := c.set_flag .Negative (result &&& 0x80 ≠ 0)
  some (c, cycles)

/-- `lax`. -/
def Instr.lax (cpu : Cpu) (mode : AddressingMode) : Option (Cpu × Nat) := do
  let (addr, cycles, c) ← cpu.fetch_operand_addr mode
  let (data, c) ← c.read_byte addr
  let c := { c with a := data }
  let c := { c with x := c.a }
  some (c.set_zero_negative_flag c.x, cycles)

/-- `sbx`. -/
def Instr.sbx (cpu : Cpu) (_mode : AddressingMode) : Option (Cpu × Nat) := do
  let (operand, c) ← cpu.fetch_operand
  let temp := c.a &&& c.x
  let result := ((temp % 256) + 256 - (operand % 256)) % 256
  let c := { c with x := result }
  let c := c.set_flag .Zero (result = 0)
  let c := c.set_flag .Negative (result &&& 0x80 ≠ 0)
  let c := c.set_flag .Carry (temp % 256 ≥ operand % 256)
  some (c, 0)

/-- `sha`: stores `A & X & (high(addr) + 1)`. -/
def Instr.sha (cpu : Cpu) (mode : AddressingMode) : Option (Cpu × Nat) := do
  let (addr, cycles, c) ← cpu.fetch_operand_addr mode
  let value := c.a &&& c.x &&& (((addr >>> 8) + 1) % 256)
  let b ← c.bus.write addr value
  some ({ c with bus := b }, cycles)

/-- `shx` (src/src/cpu/instructions.rs lines 1056-1072): on a page cross the
store address's high byte becomes the stored value. -/
def Instr.shx (cpu : Cpu) (mode : AddressingMode) : Option (Cpu × Nat) := do
  let (addr, cycles, c) ← cpu.fetch_operand_addr mode
  let high_byte := (addr >>> 8) % 256
  let value := c.x &&& ((high_byte + 1) % 256)
  let effective_addr :=
    if (addr &&& 0xFF) + (c.y % 256) > 0xFF then
      (value <<< 8) ||| ((addr &&& 0xFF) + (c.y % 256))
    else addr
  let b ← c.bus.write effective_addr value
  some ({ c with bus := b }, cycles)

/-- `shy`. -/
def Instr.shy (cpu : Cpu) (mode : AddressingMode) : Option (Cpu × Nat) := do
  let (addr, cycles, c) ← cpu.fetch_operand_addr mode
  let high_byte := (addr >>> 8) % 256
  let value := c.y &&& ((high_byte + 1) % 256)
  let effective_addr :=
    if (addr &&& 0xFF) + (c.x % 256) > 0xFF then
      (value <<< 8) ||| ((addr &&& 0xFF) + (c.x % 256))
    else addr
  let b ← c.bus.write effective_addr value
  some ({ c with bus := b }, cycles)

/-- `tas`. -/
def Instr.tas (cpu : Cpu) (mode : AddressingMode) : Option (Cpu × Nat) := do
  let (addr, cycles, c) ← cpu.fetch_operand_addr mode
  let c := { c with sp := c.a &&& c.x }
  let value := c.sp &&& (((addr >>> 8) + 1) % 256)
  let b ← c.bus.write addr value
  some ({ c with bus := b }, cycles)

/-- `arr`. -/
def Instr.arr (cpu : Cpu) (_mode : AddressingMode) : Option (Cpu × Nat) := do
  let (operand, c) ← cpu.fetch_operand
  let c := { c with a := c.a &&& operand }
  let old_carry := c.get_carry_bit
  let rotated := ((c.a % 256) >>> 1) ||| (if old_carry ≠ 0 then 0x80 else 0x00)
  let c := { c with a := rotated }
  let c := c.set_flag .Carry (c.a &&& 0x40 ≠ 0)
  let c := c.set_flag .Overflow (((c.a >>> 6) ^^^ (c.a >>> 5)) &&& 0x01 ≠ 0)
  some (c.set_zero_negative_flag c.a, 0)

/-- `alr`. -/
def Instr.alr (cpu : Cpu) (_mode : AddressingMode) : Option (Cpu × Nat) := do
  let (operand, c) ← cpu.fetch_operand
  let c := { c with a := c.a &&& operand }
  let c := c.set_flag .Carry (c.a &&& 0x1 ≠ 0)
  let c := { c with a := (c.a % 256) >>> 1 }
  let c := c.set_flag .Zero (c.a = 0)
  let c := c.set_flag .Negative (c.a &&& 0x80 ≠ 0)
  some (c, 0)

/-- One opcode table entry (src/src/cpu/instructions.rs `Instruction`). -/
structure Instruction where
  function : Cpu → AddressingMode → Option (Cpu × Nat)
  mode : AddressingMode
  min_cycles : Nat

set_option maxHeartbeats 3200000 in
/-- The 256-entry opcode table (src/src/cpu/instructions.rs `OPCODE_TABLE`),
as a function on the opcode byte; the final arm is unreachable for inputs
below 256. -/
def OPCODE_TABLE : Nat → Instruction
  | 0x00 => ⟨Instr.brk, .Implied, 7⟩
  | 0x01 => ⟨Instr.ora, .IndirectX, 6⟩
  | 0x02 => ⟨Instr.jam, .Implied, 0⟩
  | 0x03 => ⟨Instr.slo, .IndirectX, 8⟩
  | 0x04 => ⟨Instr.nop, .ZeroPage, 3⟩
  | 0x05 => ⟨Instr.ora, .ZeroPage, 3⟩
  | 0x06 => ⟨Instr.asl, .ZeroPage, 5⟩
  | 0x07 => ⟨Instr.slo, .ZeroPage, 5⟩
  | 0x08 => ⟨Instr.php, .Implied, 3⟩
  | 0x09 => ⟨Instr.ora, .Immediate, 2⟩
  | 0x0A => ⟨Instr.asl, .Accumulator, 2⟩
  | 0x0B => ⟨Instr.anc, .Immediate, 4⟩
  | 0x0C => ⟨Instr.nop, .Absolute, 4⟩
  | 0x0D => ⟨Instr.ora, .Absolute, 4⟩
  | 0x0E => ⟨Instr.asl, .Absolute, 6⟩
  | 0x0F => ⟨Instr.slo, .Absolute, 6⟩
  | 0x10 => ⟨Instr.bpl, .Relative, 2⟩
  | 0x11 => ⟨Instr.ora, .IndirectY, 5⟩
  | 0x12 => ⟨Instr.jam, .Implied, 0⟩
  | 0x13 => ⟨Instr.slo, .IndirectY, 8⟩
  | 0x14 => ⟨Instr.nop, .ZeroPageX, 4⟩
  | 0x15 => ⟨Instr.ora, .ZeroPageX, 4⟩
  | 0x16 => ⟨Instr.asl, .ZeroPageX, 6⟩
  | 0x17 => ⟨Instr.slo, .ZeroPageX, 6⟩
  | 0x18 => ⟨Instr.clc, .Implied, 2⟩
  | 0x19 => ⟨Instr.ora, .AbsoluteY, 4⟩
  | 0x1A => ⟨Instr.nop, .Implied, 2⟩
  | 0x1B => ⟨Instr.slo, .AbsoluteY, 7⟩
  | 0x1C => ⟨Instr.nop, .AbsoluteX, 4⟩
  | 0x1D => ⟨Instr.ora, .AbsoluteX, 4⟩
  | 0x1E => ⟨Instr.asl, .AbsoluteX, 7⟩
  | 0x1F => ⟨Instr.slo, .AbsoluteX, 7⟩
  | 0x20 => ⟨Instr.jsr, .Absolute, 6⟩
  | 0x21 => ⟨Instr.and, .IndirectX, 6⟩
  | 0x22 => ⟨Instr.jam, .Implied, 0⟩
  | 0x23 => ⟨Instr.rla, .IndirectX, 8⟩
  | 0x24 => ⟨Instr.bit, .ZeroPage, 3⟩
  | 0x25 => ⟨Instr.and, .ZeroPage, 3⟩
  | 0x26 => ⟨Instr.rol, .ZeroPage, 5⟩
  | 0x27 => ⟨Instr.rla, .ZeroPage, 5⟩
  | 0x28 => ⟨Instr.plp, .Implied, 4⟩
  | 0x29 => ⟨Instr.and, .Immediate, 2⟩
  | 0x2A => ⟨Instr.rol, .Accumulator, 2⟩
  | 0x2B => ⟨Instr.anc, .Immediate, 2⟩
  | 0x2C => ⟨Instr.bit, .Absolute, 4⟩
  | 0x2D => ⟨Instr.and, .Absolute, 4⟩
  | 0x2E => ⟨Instr.rol, .Absolute, 6⟩
  | 0x2F => ⟨Instr.rla, .Absolute, 6⟩
  | 0x30 => ⟨Instr.bmi, .Relative, 2⟩
  | 0x31 => ⟨Instr.and, .IndirectY, 5⟩
  | 0x32 => ⟨Instr.jam, .Implied, 0⟩
  | 0x33 => ⟨Instr.rla, .IndirectY, 8⟩
  | 0x34 => ⟨Instr.nop, .ZeroPageX, 4⟩
  | 0x35 => ⟨Instr.and, .ZeroPageX, 4⟩
  | 0x36 => ⟨Instr.rol, .ZeroPageX, 6⟩
  | 0x37 => ⟨Instr.rla, .ZeroPageX, 6⟩
  | 0x38 => ⟨Instr.sec, .Implied, 2⟩
  | 0x39 => ⟨Instr.and, .AbsoluteY, 4⟩
  | 0x3A => ⟨Instr.nop, .Implied, 2⟩
  | 0x3B => ⟨Instr.rla, .AbsoluteY, 7⟩
  | 0x3C => ⟨Instr.nop, .AbsoluteX, 4⟩
  | 0x3D => ⟨Instr.and, .AbsoluteX, 4⟩
  | 0x3E => ⟨Instr.rol, .AbsoluteX, 7⟩
  | 0x3F => ⟨Instr.rla, .AbsoluteX, 7⟩
  | 0x40 => ⟨Instr.rti, .Implied, 6⟩
  | 0x41 => ⟨Instr.eor, .IndirectX, 6⟩
  | 0x42 => ⟨Instr.jam, .Implied, 0⟩
  | 0x43 => ⟨Instr.sre, .IndirectX, 8⟩
  | 0x44 => ⟨Instr.nop, .ZeroPage, 3⟩
  | 0x45 => ⟨Instr.eor, .ZeroPage, 3⟩
  | 0x46 => ⟨Instr.lsr, .ZeroPage, 5⟩
  | 0x47 => ⟨Instr.sre, .ZeroPage, 5⟩
  | 0x48 => ⟨Instr.pha, .Implied, 3⟩
  | 0x49 => ⟨Instr.eor, .Immediate, 2⟩
  | 0x4A => ⟨Instr.lsr, .Accumulator, 2⟩
  | 0x4B => ⟨Instr.alr, .Immediate, 2⟩
  | 0x4C => ⟨Instr.jmp, .Absolute, 3⟩
  | 0x4D => ⟨Instr.eor, .Absolute, 4⟩
  | 0x4E => ⟨Instr.lsr, .Absolute, 6⟩
  | 0x4F => ⟨Instr.sre, .Absolute, 6⟩
  | 0x50 => ⟨Instr.bvc, .Relative, 2⟩
  | 0x51 => ⟨Instr.eor, .IndirectY, 5⟩
  | 0x52 => ⟨Instr.jam, .Implied, 0⟩
  | 0x53 => ⟨Instr.sre, .IndirectY, 8⟩
  | 0x54 => ⟨Instr.nop, .ZeroPageX, 4⟩
  | 0x55 => ⟨Instr.eor, .ZeroPageX, 4⟩
  | 0x56 => ⟨Instr.lsr, .ZeroPageX, 6⟩
  | 0x57 => ⟨Instr.sre, .ZeroPageX, 6⟩
  | 0x58 => ⟨Instr.cli, .Implied, 2⟩
  | 0x59 => ⟨Instr.eor, .AbsoluteY, 4⟩
  | 0x5A => ⟨Instr.nop, .Implied, 2⟩
  | 0x5B => ⟨Instr.sre, .AbsoluteY, 7⟩
  | 0x5C => ⟨Instr.nop, .AbsoluteX, 4⟩
  | 0x5D => ⟨Instr.eor, .AbsoluteX, 4⟩
  | 0x5E => ⟨Instr.lsr, .AbsoluteX, 7⟩
  | 0x5F => ⟨Instr.sre, .AbsoluteX, 7⟩
  | 0x60 => ⟨Instr.rts, .Implied, 6⟩
  | 0x61 => ⟨Instr.adc, .IndirectX, 6⟩
  | 0x62 => ⟨Instr.jam, .Implied, 0⟩
  | 0x63 => ⟨Instr.rra, .IndirectX, 8⟩
  | 0x64 => ⟨Instr.nop, .ZeroPage, 3⟩
  | 0x65 => ⟨Instr.adc, .ZeroPage, 3⟩
  | 0x66 => ⟨Instr.ror, .ZeroPage, 5⟩
  | 0x67 => ⟨Instr.rra, .ZeroPage, 5⟩
  | 0x68 => ⟨Instr.pla, .Implied, 4⟩
  | 0x69 => ⟨Instr.adc, .Immediate, 2⟩
  | 0x6A => ⟨Instr.ror, .Accumulator, 2⟩
  | 0x6B => ⟨Instr.arr, .Immediate, 2⟩
  | 0x6C => ⟨Instr.jmp, .Indirect, 5⟩
  | 0x6D => ⟨Instr.adc, .Absolute, 4⟩
  | 0x6E => ⟨Instr.ror, .Absolute, 6⟩
  | 0x6F => ⟨Instr.rra, .Absolute, 6⟩
  | 0x70 => ⟨Instr.bvs, .Relative, 2⟩
  | 0x71 => ⟨Instr.adc, .IndirectY, 5⟩
  | 0x72 => ⟨Instr.jam, .Implied, 0⟩
  | 0x73 => ⟨Instr.rra, .IndirectY, 8⟩
  | 0x74 => ⟨Instr.nop, .ZeroPageX, 4⟩
  | 0x75 => ⟨Instr.adc, .ZeroPageX, 4⟩
  | 0x76 => ⟨Instr.ror, .ZeroPageX, 6⟩
  | 0x77 => ⟨Instr.rra, .ZeroPageX, 6⟩
  | 0x78 => ⟨Instr.sei, .Implied, 2⟩
  | 0x79 => ⟨Instr.adc, .AbsoluteY, 4⟩
  | 0x7A => ⟨Instr.nop, .Implied, 2⟩
  | 0x7B => ⟨Instr.rra, .AbsoluteY, 7⟩
  | 0x7C => ⟨Instr.nop, .AbsoluteX, 4⟩
  | 0x7D => ⟨Instr.adc, .AbsoluteX, 4⟩
  | 0x7E => ⟨Instr.ror, .AbsoluteX, 7⟩
  | 0x7F => ⟨Instr.rra, .AbsoluteX, 7⟩
  | 0x80 => ⟨Instr.nop, .Immediate, 2⟩
  | 0x81 => ⟨Instr.sta, .IndirectX, 6⟩
  | 0x82 => ⟨Instr.nop, .Immediate, 2⟩
  | 0x83 => ⟨Instr.sax, .IndirectX, 6⟩
  | 0x84 => ⟨Instr.sty, .ZeroPage, 3⟩
  | 0x85 => ⟨Instr.sta, .ZeroPage, 3⟩
  | 0x86 => ⟨Instr.stx, .ZeroPage, 3⟩
  | 0x87 => ⟨Instr.sax, .ZeroPage, 3⟩
  | 0x88 => ⟨Instr.dey, .Implied, 2⟩
  | 0x89 => ⟨Instr.nop, .Immediate, 2⟩
  | 0x8A => ⟨Instr.txa, .Implied, 2⟩
  | 0x8B => ⟨Instr.ane, .Immediate, 2⟩
  | 0x8C => ⟨Instr.sty, .Absolute, 4⟩
  | 0x8D => ⟨Instr.sta, .Absolute, 4⟩
  | 0x8E => ⟨Instr.stx, .Absolute, 4⟩
  | 0x8F => ⟨Instr.sax, .Absolute, 4⟩
  | 0x90 => ⟨Instr.bcc, .Relative, 2⟩
  | 0x91 => ⟨Instr.sta, .IndirectY, 6⟩
  | 0x92 => ⟨Instr.jam, .Implied, 0⟩
  | 0x93 => ⟨Instr.sha, .IndirectY, 6⟩
  | 0x94 => ⟨Instr.sty, .ZeroPageX, 4⟩
  | 0x95 => ⟨Instr.sta, .ZeroPageX, 4⟩
  | 0x96 => ⟨Instr.stx, .ZeroPageY, 4⟩
  | 0x97 => ⟨Instr.sax, .ZeroPageY, 4⟩
  | 0x98 => ⟨Instr.tya, .Implied, 2⟩
  | 0x99 => ⟨Instr.sta, .AbsoluteY, 5⟩
  | 0x9A => ⟨Instr.txs, .Implied, 2⟩
  | 0x9B => ⟨Instr.tas, .AbsoluteY, 5⟩
  | 0x9C => ⟨Instr.shy, .AbsoluteX, 5⟩
  | 0x9D => ⟨Instr.sta, .AbsoluteX, 5⟩
  | 0x9E => ⟨Instr.shx, .AbsoluteY, 5⟩
  | 0x9F => ⟨Instr.sha, .AbsoluteY, 5⟩
  | 0xA0 => ⟨Instr.ldy, .Immediate, 2⟩
  | 0xA1 => ⟨Instr.lda, .IndirectX, 6⟩
  | 0xA2 => ⟨Instr.ldx, .Immediate, 2⟩
  | 0xA3 => ⟨Instr.lax, .IndirectX, 6⟩
  | 0xA4 => ⟨Instr.ldy, .ZeroPage, 3⟩
  | 0xA5 => ⟨Instr.lda, .ZeroPage, 3⟩
  | 0xA6 => ⟨Instr.ldx, .ZeroPage, 3⟩
  | 0xA7 => ⟨Instr.lax, .ZeroPage, 3⟩
  | 0xA8 => ⟨Instr.tay, .Implied, 2⟩
  | 0xA9 => ⟨Instr.lda, .Immediate, 2⟩
  | 0xAA => ⟨Instr.tax, .Implied, 2⟩
  | 0xAB => ⟨Instr.lxa, .Immediate, 2⟩
  | 0xAC => ⟨Instr.ldy, .Absolute, 4⟩
  | 0xAD => ⟨Instr.lda, .Absolute, 4⟩
  | 0xAE => ⟨Instr.ldx, .Absolute, 4⟩
  | 0xAF => ⟨Instr.lax, .Absolute, 4⟩
  | 0xB0 => ⟨Instr.bcs, .Relative, 2⟩
  | 0xB1 => ⟨Instr.lda, .IndirectY, 5⟩
  | 0xB2 => ⟨Instr.jam, .Implied, 0⟩
  | 0xB3 => ⟨Instr.lax, .IndirectY, 5⟩
  | 0xB4 => ⟨Instr.ldy, .ZeroPageX, 4⟩
  | 0xB5 => ⟨Instr.lda, .ZeroPageX, 4⟩
  | 0xB6 => ⟨Instr.ldx, .ZeroPageY, 4⟩
  | 0xB7 => ⟨Instr.lax, .ZeroPageY, 4⟩
  | 0xB8 => ⟨Instr.clv, .Implied, 2⟩
  | 0xB9 => ⟨Instr.lda, .AbsoluteY, 4⟩
  | 0xBA => ⟨Instr.tsx, .Implied, 2⟩
  | 0xBB => ⟨Instr.las, .AbsoluteY, 4⟩
  | 0xBC => ⟨Instr.ldy, .AbsoluteX, 4⟩
  | 0xBD => ⟨Instr.lda, .AbsoluteX, 4⟩
  | 0xBE => ⟨Instr.ldx, .AbsoluteY, 4⟩
  | 0xBF => ⟨Instr.lax, .AbsoluteY, 4⟩
  | 0xC0 => ⟨Instr.cpy, .Immediate, 2⟩
  | 0xC1 => ⟨Instr.cmp, .IndirectX, 6⟩
  | 0xC2 => ⟨Instr.nop, .Immediate, 2⟩
  | 0xC3 => ⟨Instr.dcp, .IndirectX, 8⟩
  | 0xC4 => ⟨Instr.cpy, .ZeroPage, 3⟩
  | 0xC5 => ⟨Instr.cmp, .ZeroPage, 3⟩
  | 0xC6 => ⟨Instr.dec, .ZeroPage, 5⟩
  | 0xC7 => ⟨Instr.dcp, .ZeroPage, 5⟩
  | 0xC8 => ⟨Instr.iny, .Implied, 2⟩
  | 0xC9 => ⟨Instr.cmp, .Immediate, 2⟩
  | 0xCA => ⟨Instr.dex, .Implied, 2⟩
  | 0xCB => ⟨Instr.sbx, .Immediate, 2⟩
  | 0xCC => ⟨Instr.cpy, .Absolute, 4⟩
  | 0xCD => ⟨Instr.cmp, .Absolute, 4⟩
  | 0xCE => ⟨Instr.dec, .Absolute, 6⟩
  | 0xCF => ⟨Instr.dcp, .Absolute, 6⟩
  | 0xD0 => ⟨Instr.bne, .Relative, 2⟩
  | 0xD1 => ⟨Instr.cmp, .IndirectY, 5⟩
  | 0xD2 => ⟨Instr.jam, .Implied, 0⟩
  | 0xD3 => ⟨Instr.dcp, .IndirectY, 8⟩
  | 0xD4 => ⟨Instr.nop, .ZeroPageX, 4⟩
  | 0xD5 => ⟨Instr.cmp, .ZeroPageX, 4⟩
  | 0xD6 => ⟨Instr.dec, .ZeroPageX, 6⟩
  | 0xD7 => ⟨Instr.dcp, .ZeroPageX, 6⟩
  | 0xD8 => ⟨Instr.cld, .Implied, 2⟩
  | 0xD9 => ⟨Instr.cmp, .AbsoluteY, 4⟩
  | 0xDA => ⟨Instr.nop, .Implied, 2⟩
  | 0xDB => ⟨Instr.dcp, .AbsoluteY, 7⟩
  | 0xDC => ⟨Instr.nop, .AbsoluteX, 4⟩
  | 0xDD => ⟨Instr.cmp, .AbsoluteX, 4⟩
  | 0xDE => ⟨Instr.dec, .AbsoluteX, 7⟩
  | 0xDF => ⟨Instr.dcp, .AbsoluteX, 7⟩
  | 0xE0 => ⟨Instr.cpx, .Immediate, 2⟩
  | 0xE1 => ⟨Instr.sbc, .IndirectX, 6⟩
  | 0xE2 => ⟨Instr.nop, .Immediate, 2⟩
  | 0xE3 => ⟨Instr.isc, .IndirectX, 8⟩
  | 0xE4 => ⟨Instr.cpx, .ZeroPage, 3⟩
  | 0xE5 => ⟨Instr.sbc, .ZeroPage, 3⟩
  | 0xE6 => ⟨Instr.inc, .ZeroPage, 5⟩
  | 0xE7 => ⟨Instr.isc, .ZeroPage, 5⟩
  | 0xE8 => ⟨Instr.inx, .Implied, 2⟩
  | 0xE9 => ⟨Instr.sbc, .Immediate, 2⟩
  | 0xEA => ⟨Instr.nop, .Implied, 2⟩
  | 0xEB => ⟨Instr.sbc, .Immediate, 2⟩
  | 0xEC => ⟨Instr.cpx, .Absolute, 4⟩
  | 0xED => ⟨Instr.sbc, .Absolute, 4⟩
  | 0xEE => ⟨Instr.inc, .Absolute, 6⟩
  | 0xEF => ⟨Instr.isc, .Absolute, 6⟩
  | 0xF0 => ⟨Instr.beq, .Relative, 2⟩
  | 0xF1 => ⟨Instr.sbc, .IndirectY, 5⟩
  | 0xF2 => ⟨Instr.jam, .Implied, 0⟩
  | 0xF3 => ⟨Instr.isc, .IndirectY, 8⟩
  | 0xF4 => ⟨Instr.nop, .ZeroPageX, 4⟩
  | 0xF5 => ⟨Instr.sbc, .ZeroPageX, 4⟩
  | 0xF6 => ⟨Instr.inc, .ZeroPageX, 6⟩
  | 0xF7 => ⟨Instr.isc, .ZeroPageX, 6⟩
  | 0xF8 => ⟨Instr.sed, .Implied, 2⟩
  | 0xF9 => ⟨Instr.sbc, .AbsoluteY, 4⟩
  | 0xFA => ⟨Instr.nop, .Implied, 2⟩
  | 0xFB => ⟨Instr.isc, .AbsoluteY, 7⟩
  | 0xFC => ⟨Instr.nop, .AbsoluteX, 4⟩
  | 0xFD => ⟨Instr.sbc, .AbsoluteX, 4⟩
  | 0xFE => ⟨Instr.inc, .AbsoluteX, 7⟩
  | 0xFF => ⟨Instr.isc, .AbsoluteX, 7⟩  | _ => ⟨Instr.jam, .Implied, 0⟩

/-- `Cpu::fetch_instruction` (src/src/cpu/cpu.rs lines 259-267). -/
def Cpu.fetch_instruction (c : Cpu) : Option (Instruction × Cpu) :=
  (c.read_byte c.pc).map fun r => (OPCODE_TABLE (r.1 % 256), r.2.inc_pc)

/-- One iteration of the OAM-DMA loop in `Cpu::step` (src/src/cpu/cpu.rs
lines 128-132): read `bank*0x100 + i` through the bus and hand the byte to
`Ppu::write_oamdata`. -/
def Cpu.dmaIter (c : Cpu) (bank i : Nat) : Option Cpu :=
  (c.read_byte (bank * 0x100 + i)).map fun r =>
    { r.2 with bus := { r.2.bus with ppu := r.2.bus.ppu.write_oamdata r.1 } }

/-- The first `n` iterations (i = 0, 1, …, n-1) of the OAM-DMA loop. -/
def Cpu.dmaRun (bank : Nat) : Nat → Cpu → Option Cpu
  | 0, c => some c
  | n + 1, c => (Cpu.dmaRun bank n c).bind fun c1 => c1.dmaIter bank n

/-- The DMA prologue of `Cpu::step` (src/src/cpu/cpu.rs lines 124-135): when
a transfer is latched, copy 256 bytes from the latched page into OAM via
`write_oamdata`, charge 514 cycles and clear the latch. -/
def Cpu.stepDma (c : Cpu) : Option Cpu :=
  if c.bus.dma_transfer.1 then
    (Cpu.dmaRun c.bus.dma_transfer.2 256 c).map fun c =>
      { c with bus := { c.bus with cycles := c.bus.cycles + 514, dma_transfer := (false, 0) } }
  else some c

/-- The deferred interrupt-disable application at the top of `Cpu::step`
(src/src/cpu/cpu.rs lines 137-140). -/
def Cpu.apply_deferred_i (c : Cpu) : Cpu :=
  if c.update_interrupt_disable.1 then
    let c := c.set_flag .InterruptDisable (c.update_interrupt_disable.2 ≠ 0)
    { c with update_interrupt_disable := (false, 0) }
  else c

/-- The PPU catch-up loop of `Cpu::step` (src/src/cpu/cpu.rs lines 182-188):
step the PPU once per iteration and service a latched NMI. -/
def Cpu.ppuCatchUp : Nat → Cpu → Option Cpu
  | 0, c => some c
  | n + 1, c => do
    let p ← c.bus.ppu.step
    let c := { c with bus := { c.bus with ppu := p } }
    let c ←
      if c.bus.ppu.trigger_nmi then
        let c := { c with bus := { c.bus with ppu := { c.bus.ppu with trigger_nmi := false } } }
        c.interrupt .NMI
      else some c
    Cpu.ppuCatchUp n c

/-- The remainder of `Cpu::step` after the DMA prologue (src/src/cpu/cpu.rs
lines 137-191): deferred-I application, opcode fetch and dispatch, PPU
catch-up by 3 dots per cycle, then the cycle-counter update. -/
def Cpu.stepRest (c : Cpu) : Option Cpu := do
  let c := c.apply_deferred_i
  let (instruction, c) ← c.fetch_instruction
  let (c, page_cross_cycle) ← instruction.function c instruction.mode
  let cycles := instruction.min_cycles + page_cross_cycle
  let c ← Cpu.ppuCatchUp (cycles * 3) c
  some { c with bus := { c.bus with cycles := c.bus.cycles + cycles } }

/-- `Cpu::step` (src/src/cpu/cpu.rs lines 124-192): the DMA prologue runs
first, before the instruction fetch in `Cpu.stepRest`. -/
def Cpu.step (c : Cpu) : Option Cpu := (c.stepDma).bind Cpu.stepRest

/-- `Nes::poll_frame` (src/src/lib.rs lines 59-63): return the PPU
`frame_ready` flag and clear it. -/
def Nes.poll_frame (c : Cpu) : Bool × Cpu :=
  let ret := c.bus.ppu.frame_ready
  (ret, { c with bus := { c.bus with ppu := { c.bus.ppu with frame_ready := false } } })

/-! ## Concrete fixtures used by the theorems below -/

/-- A mapper-0 cartridge that declares no CHR-ROM and no CHR-RAM, so
`Mapper0::new` allocates 8 KiB of CHR-RAM (src/src/mappers/m0.rs lines
16-19); 16 KiB PRG-ROM, 8 KiB PRG-RAM, horizontal mirroring. -/
def romNROM : Rom :=
  { header := { mirroring := .Horizontal }
    mapper := .m0 { chr_rom := Memory.zeros 0, chr_ram := Memory.zeros 0x2000,
                    prg_rom := Memory.zeros 0x4000, prg_ram := Memory.zeros 0x2000 } }

/-- A freshly powered-on CPU over `romNROM` whose 2 KiB RAM holds `f`. -/
def cpuWithRam (f : Nat → Nat) : Cpu :=
  let c := Cpu.new romNROM
  { c with bus := { c.bus with ram := { data := f, size := 0x800 } } }

/-- A fresh MMC1 state as `Mapper1::new` builds it (src/src/mappers/m1.rs
lines 17-33): shift register 0b10000, count 0, control 0x0C. -/
def mmc1Fresh : Mapper1 :=
  { chr_rom := Memory.zeros 0x2000, prg_rom := Memory.zeros 0x8000, prg_ram := Memory.zeros 0x2000
    shift_register := 0x10, shift_count := 0, control := 0x0C
    chr_bank_0 := 0, chr_bank_1 := 0, prg_bank := 0, last_write_cycle := 0 }

/-- PPU parked at scanline 241 dot 1 with NMI output disabled (ctrl = 0). -/
def ppuAt241NoNmi : Ppu := { Ppu.new romNROM with scanline := 241, cycle := 1 }

/-- PPU at the last dot of the last visible scanline (239, 340) with NMI
output enabled: the next step transitions into the post-render scanline. -/
def ppuAt239End : Ppu := { Ppu.new romNROM with scanline := 239, cycle := 340, ctrl := 0x80 }

/-- PPU parked at scanline 241 dot 1 with NMI output enabled. -/
def ppuAt241Nmi : Ppu := { Ppu.new romNROM with scanline := 241, cycle := 1, ctrl := 0x80 }

/-- PPU with VBlank set in status and a nonzero low open-bus value. -/
def ppuStatusOpenBus : Ppu := { Ppu.new romNROM with status := 0x80, open_bus := 0x15 }

/-- CPU about to execute `CLI` (opcode 0x58 at PC = 0) with the I flag set
(P = 0x25). -/
def cpuAboutToCli : Cpu :=
  { cpuWithRam (fun a => if a = 0 then 0x58 else 0) with pc := 0, p := 0x25 }

/-- CPU about to execute `LXA #$FF` (opcode 0xAB at PC = 0). -/
def cpuAboutToLxa : Cpu :=
  { cpuWithRam (fun a => if a = 0 then 0xAB else if a = 1 then 0xFF else 0) with
    pc := 0, p := 0x24, a := 0x55, x := 0x11 }

/-- CPU about to execute a not-taken `BNE` (Z set) at PC = 0x00FE whose
relative target 0x0080 lies in a different page than the incremented
PC 0x0100. -/
def cpuUntakenBne : Cpu :=
  { cpuWithRam (fun a => if a = 0xFE then 0xD0 else if a = 0xFF then 0x80 else 0) with
    pc := 0x00FE, p := 0x26 }

/-- CPU about to execute `STA $01FF,X` with X = 1: a page-crossing store. -/
def cpuStaAbsX : Cpu :=
  { cpuWithRam (fun a => if a = 0 then 0x9D else if a = 1 then 0xFF else if a = 2 then 0x01 else 0) with
    pc := 0, x := 1 }

/-! ## C2 -/

/-- A byte masked with 0x80 is 0 or 0x80, never 1. -/
theorem land_0x80_ne_one (x : Nat) : x &&& 0x80 ≠ 1 := by
  intro h
  have ht := congrArg (fun n => Nat.testBit n 0) h
  simp [Nat.testBit_land] at ht

/-- C2: a $2000 write stores the byte into ctrl and loads bits 10-11 of t
from bits 0-1 of the data, but it can never raise an NMI: the source
compares `self.ctrl & 0x80` and `self.status & 0x80` against 1 (values that
are always 0 or 0x80), so the trigger condition is unsatisfiable and
`trigger_nmi` is left unchanged for every write, contradicting the claim
that a 0→1 toggle of ctrl bit 7 during VBlank raises an NMI. -/
theorem C2_write_ctrl_never_raises_nmi (p : Ppu) (d : Nat) :
    (p.write_ctrl d).trigger_nmi = p.trigger_nmi ∧
    (p.write_ctrl d).ctrl = d % 256 ∧
    (p.write_ctrl d).t = ((p.t &&& 0xF3FF) ||| ((d % 256 &&& 0x3) <<< 10)) := by
  have hno : ¬(p.ctrl &&& 0x80 = 0 ∧ (d % 256) &&& 0x80 = 1 ∧ p.status &&& 0x80 = 1) :=
    fun h => land_0x80_ne_one _ h.2.1
  simp only [Ppu.write_ctrl]
  rw [if_neg hno]
  exact ⟨rfl, rfl, rfl⟩

/-- C2, failing input evaluated: with VBlank set (status 0x80) and ctrl 0,
writing 0x80 to $2000 (bit 7 toggles 0→1) leaves `trigger_nmi` false. -/
theorem C2_write_ctrl_failing_input :
    (({ Ppu.new romNROM with status := 0x80 } : Ppu).write_ctrl 0x80).trigger_nmi = false := by
  decide

/-! ## C3 -/

/-- C3: executing `CLI` with I set (P = 0x25) clears the I flag during that
very step — the post-step P has bit 2 clear and the deferred-update latch is
untouched — contradicting the claim that `CLI` leaves I unchanged until the
top of the following step.  (`SEI` and `PLP` do use the latch; `CLI` writes
the flag directly, src/src/cpu/instructions.rs lines 831-834.) -/
theorem C3_cli_clears_i_within_its_own_step :
    cpuAboutToCli.p &&& 0x4 = 0x4 ∧
    (cpuAboutToCli.step).map (fun c => (c.p &&& 0x4, c.update_interrupt_disable)) =
      some (0, (false, 0)) := by
  constructor
  · decide
  · decide

/-! ## C5 -/

/-- C5 counterexample: `LXA #$FF` (opcode 0xAB) leaves A = 0xFF with Z clear
and N set — not A = 0 with Z set and N clear as claimed. -/
theorem C5_cx_lxa_loads_operand :
    (cpuAboutToLxa.step).map (fun c => (c.a, c.x, c.p &&& 0x2, c.p &&& 0x80)) =
      some (0xFF, 0xFF, 0, 0x80) := by
  decide

/-! ## C6 -/

/-- C6 counterexample: with status = 0x80 and open_bus = 0x15, reading $2002
returns 0x80 — the raw status byte — not 0x95, the byte the claim describes
(status bits 5-7 over the low five open-bus bits). -/
theorem C6_cx_status_read_returns_raw_status :
    (ppuStatusOpenBus.read_status).1 = 0x80 ∧
    (ppuStatusOpenBus.read_status).1 ≠
      ((ppuStatusOpenBus.status &&& 0xE0) ||| (ppuStatusOpenBus.open_bus &&& 0x1F)) := by
  decide

/-- C6 amended: a $2002 read returns exactly the raw status byte; its side
effects clear the VBlank bit, reset the write toggle, and store the blend of
status bits 5-7 with the low five open-bus bits into `open_bus` (the blend
goes to the open bus, not to the returned value). -/
theorem C6_read_status_effects (p : Ppu) :
    (p.read_status).1 = p.status ∧
    (p.read_status).2.status = p.status &&& 0x7F ∧
    (p.read_status).2.w = false ∧
    (p.read_status).2.open_bus = ((p.status &&& 0xE0) ||| (p.open_bus &&& 0x1F)) := by
  exact ⟨rfl, rfl, rfl, rfl⟩

/-! ## C1 counterexample -/

/-- C1 counterexample: with NMI output disabled (ctrl bit 7 clear), stepping
the PPU at scanline 241 dot 1 leaves `frame_ready` false — so the flag is
not raised "regardless of the current ctrl register value" — and with NMI
output enabled, the step that transitions into the post-render scanline
(239, 340) → (240, 0) also leaves it false: the flag is only raised at
241:1, not on entry into the post-render scanline. -/
theorem C1_cx_frame_ready_gated_on_nmi_enable :
    ((ppuAt241NoNmi.step).map Ppu.frame_ready = some false) ∧
    ((ppuAt239End.step).map (fun q => (q.scanline, q.cycle, q.frame_ready)) =
      some (240, 0, false)) := by
  decide

/-! ## C4 counterexample -/

/-- C4 counterexample: a not-taken `BNE` whose (unused) target crosses a page
consumes 3 cycles, not the base 2 the claim demands (the PC lands on the next
instruction at 0x0100, so the branch really was not taken), and a
page-crossing `STA $01FF,X` — a store, not a read — consumes 6 cycles
instead of its 5-cycle base, contradicting "charged only for … read
instructions … and taken branches". -/
theorem C4_cx_untaken_branch_and_store_pay_penalty :
    (cpuUntakenBne.step).map (fun c => (c.bus.cycles, c.pc)) = some (3, 0x0100) ∧
    (cpuUntakenBne.step).map (fun c => c.bus.cycles) ≠ some 2 ∧
    (cpuStaAbsX.step).map (fun c => c.bus.cycles) = some 6 ∧
    (cpuStaAbsX.step).map (fun c => c.bus.cycles) ≠ some 5 := by
  decide

/-! ## C7 -/

/-- The write-then-read round trip of C7 driven through the register
interface: set v = 0x0000 via two $2006 writes, write 0xAB through $2007,
set v back, then read $2007 twice (the first read only primes the buffer). -/
def chrRoundTrip : Option Nat :=
  let p := ((Ppu.new romNROM).write_addr 0x00).write_addr 0x00
  (p.write_data 0xAB).bind fun p =>
    let p := (p.write_addr 0x00).write_addr 0x00
    (p.read_data).bind fun r => (r.2.read_data).map Prod.fst

/-- C7: on a mapper-0 cartridge with 8 KiB CHR-RAM, writing 0xAB through
$2007 at v = 0x0000 does not reach the CHR-RAM (the byte read back through
the mapper is still 0), and the buffered $2007 round trip returns 0x00, not
the written 0xAB: `Ppu::write`'s 0x0000-0x1FFF arm is empty, so
pattern-space writes are dropped even though `Mapper0::write` implements
the CHR-RAM store the claim (and the spec) describes. -/
theorem C7_chr_ram_write_through_2007_is_dropped :
    (((Ppu.new romNROM).write_data 0xAB).bind (fun p => p.rom.mapper.read 0) = some 0) ∧
    chrRoundTrip = some 0x00 ∧
    chrRoundTrip ≠ some 0xAB := by
  decide

/-! ## C9 -/

/-- C9: the MMC1 serial port.  A write with bit 7 set resets the shift
register to 0b10000, zeroes the count, and ORs control with 0x0C; a write
with bit 7 clear shifts bit 0 of the data into the 5-bit register; the
fifth shift commits the accumulated value to the control / chr-bank-0 /
chr-bank-1 / prg-bank register selected by bits 13-14 of the address and
resets the shift state; and five consecutive writes of 0,1,1,0,0 to $8000
leave control = 0x06 with the shift state reset. -/
theorem C9_mmc1_shift_register :
    (∀ (m : Mapper1) (addr d : Nat), addr < 65536 → d < 256 → d &&& 0x80 ≠ 0 →
      m.write_register addr d =
        { m with shift_register := 0x10, shift_count := 0, control := m.control ||| 0x0C })
  ∧ (∀ (m : Mapper1) (addr d : Nat), addr < 65536 → d < 256 → d &&& 0x80 = 0 →
      (m.shift_count + 1) % 256 ≠ 5 →
      m.write_register addr d =
        { m with shift_register := (m.shift_register >>> 1) ||| ((d &&& 1) <<< 4),
                 shift_count := (m.shift_count + 1) % 256 })
  ∧ (∀ (m : Mapper1) (addr d : Nat), addr < 65536 → d < 256 → d &&& 0x80 = 0 →
      (m.shift_count + 1) % 256 = 5 →
      ((addr &&& 0x6000 = 0x0000 → m.write_register addr d =
        { m with control := (m.shift_register >>> 1) ||| ((d &&& 1) <<< 4),
                 shift_register := 0x10, shift_count := 0 }) ∧
       (addr &&& 0x6000 = 0x2000 → m.write_register addr d =
        { m with chr_bank_0 := (m.shift_register >>> 1) ||| ((d &&& 1) <<< 4),
                 shift_register := 0x10, shift_count := 0 }) ∧
       (addr &&& 0x6000 = 0x4000 → m.write_register addr d =
        { m with chr_bank_1 := (m.shift_register >>> 1) ||| ((d &&& 1) <<< 4),
                 shift_register := 0x10, shift_count := 0 }) ∧
       (addr &&& 0x6000 = 0x6000 → m.write_register addr d =
        { m with prg_bank := (m.shift_register >>> 1) ||| ((d &&& 1) <<< 4),
                 shift_register := 0x10, shift_count := 0 })))
  ∧ (((((mmc1Fresh.write_register 0x8000 0).write_register 0x8000 1).write_register 0x8000 1).write_register
        0x8000 0).write_register 0x8000 0).control = 0x06
  ∧ (((((mmc1Fresh.write_register 0x8000 0).write_register 0x8000 1).write_register 0x8000 1).write_register
        0x8000 0).write_register 0x8000 0).shift_register = 0x10
  ∧ (((((mmc1Fresh.write_register 0x8000 0).write_register 0x8000 1).write_register 0x8000 1).write_register
        0x8000 0).write_register 0x8000 0).shift_count = 0 := by
  refine ⟨?_, ?_, ?_, by decide, by decide, by decide⟩
  · intro m addr d ha hd h
    simp only [Mapper1.write_register, Nat.mod_eq_of_lt ha, Nat.mod_eq_of_lt hd]
    rw [if_pos h]
  · intro m addr d ha hd h h5
    simp only [Mapper1.write_register, Nat.mod_eq_of_lt ha, Nat.mod_eq_of_lt hd]
    rw [if_neg (not_not_intro h), if_neg h5]
  · intro m addr d ha hd h h5
    refine ⟨?_, ?_, ?_, ?_⟩ <;> intro hsel <;>
      simp only [Mapper1.write_register, Nat.mod_eq_of_lt ha, Nat.mod_eq_of_lt hd] <;>
      rw [if_neg (not_not_intro h), if_pos h5] <;>
      simp only [hsel] <;> norm_num

/-- C9 witness: the reset-write clause applied at the fresh MMC1 state with
a bit-7-set write to $8000. -/
theorem C9_mmc1_shift_register_witness :
    mmc1Fresh.write_register 0x8000 0x80 =
      { mmc1Fresh with shift_register := 0x10, shift_count := 0,
                       control := mmc1Fresh.control ||| 0x0C } :=
  C9_mmc1_shift_register.1 mmc1Fresh 0x8000 0x80 (by decide) (by decide) (by decide)

/-! ## Projection lemmas for `Cpu.set_flag` -/

/-- `set_flag` only changes P. -/
@[simp] theorem Cpu.set_flag_a (c : Cpu) (f : StatusFlag) (v : Bool) :
    (c.set_flag f v).a = c.a := by
  unfold Cpu.set_flag; split <;> rfl

/-- `set_flag` only changes P. -/
@[simp] theorem Cpu.set_flag_x (c : Cpu) (f : StatusFlag) (v : Bool) :
    (c.set_flag f v).x = c.x := by
  unfold Cpu.set_flag; split <;> rfl

/-- `set_flag` only changes P. -/
@[simp] theorem Cpu.set_flag_y (c : Cpu) (f : StatusFlag) (v : Bool) :
    (c.set_flag f v).y = c.y := by
  unfold Cpu.set_flag; split <;> rfl

/-- `set_flag` only changes P. -/
@[simp] theorem Cpu.set_flag_pc (c : Cpu) (f : StatusFlag) (v : Bool) :
    (c.set_flag f v).pc = c.pc := by
  unfold Cpu.set_flag; split <;> rfl

/-- `set_flag` only changes P. -/
@[simp] theorem Cpu.set_flag_sp (c : Cpu) (f : StatusFlag) (v : Bool) :
    (c.set_flag f v).sp = c.sp := by
  unfold Cpu.set_flag; split <;> rfl

/-- `set_flag` only changes P. -/
@[simp] theorem Cpu.set_flag_bus (c : Cpu) (f : StatusFlag) (v : Bool) :
    (c.set_flag f v).bus = c.bus := by
  unfold Cpu.set_flag; split <;> rfl

/-- `set_flag` only changes P. -/
@[simp] theorem Cpu.set_flag_uid (c : Cpu) (f : StatusFlag) (v : Bool) :
    (c.set_flag f v).update_interrupt_disable = c.update_interrupt_disable := by
  unfold Cpu.set_flag; split <;> rfl

/-! ## C5 amended -/

/-- C5 amended: `ANE` (0x8B) leaves A = 0 with Z set and N clear for every
input, but `LXA` (0xAB) is implemented as `LDA` immediate followed by `TAX`:
A and X are loaded with the fetched operand and Z/N are set from it, so only
a zero operand yields A = 0 / Z set / N clear. -/
theorem C5_ane_lxa_semantics :
    (∀ (c : Cpu) (mode : AddressingMode), ∃ c2 : Cpu,
      Instr.ane c mode = some (c2, 0) ∧ c2.a = 0 ∧
      c2.p.testBit 1 = true ∧ c2.p.testBit 7 = false)
  ∧ (∀ (c c1 : Cpu) (d : Nat), c.fetch_operand = some (d, c1) →
      ∃ c2 : Cpu, Instr.lxa c .Immediate = some (c2, 0) ∧ c2.a = d ∧ c2.x = d ∧
        c2.p.testBit 1 = decide (d % 256 = 0) ∧
        c2.p.testBit 7 = decide ((d % 256) &&& 0x80 ≠ 0)) := by
  have t21 : Nat.testBit 2 1 = true := by decide
  have t1271 : Nat.testBit 127 1 = true := by decide
  have t1277 : Nat.testBit 127 7 = false := by decide
  constructor
  · intro c mode
    refine ⟨_, rfl, rfl, ?_, ?_⟩
    · simp [Cpu.set_flag, StatusFlag.toNat, Nat.testBit_or, Nat.testBit_and, t21, t1271]
    · simp [Cpu.set_flag, StatusFlag.toNat, Nat.testBit_or, Nat.testBit_and, t1277]
  · intro c c1 d h
    simp only [Instr.lxa, Instr.lda, Instr.tax, if_pos rfl, h, Option.bind_eq_bind,
      Option.some_bind, Cpu.set_zero_negative_flag, ite_true]
    refine ⟨_, rfl, ?_, ?_, ?_, ?_⟩
    · simp
    · simp
    · by_cases hz : d % 256 = 0 <;> by_cases hn : d % 256 &&& 128 = 0 <;>
        simp +decide [hz, hn, Cpu.set_flag, StatusFlag.toNat, Nat.testBit_or, Nat.testBit_and]
    · by_cases hz : d % 256 = 0 <;> by_cases hn : d % 256 &&& 128 = 0 <;>
        simp +decide [hz, hn, Cpu.set_flag, StatusFlag.toNat, Nat.testBit_or, Nat.testBit_and]

/-- C5 witness: the `LXA` clause applied to the concrete CPU whose PC points
at the 0xFF operand byte (the handler runs after the opcode fetch). -/
theorem C5_ane_lxa_semantics_witness :
    ∃ c2 : Cpu, Instr.lxa ({ cpuAboutToLxa with pc := 1 } : Cpu) .Immediate = some (c2, 0) ∧
      c2.a = 0xFF ∧ c2.p.testBit 7 = true := by
  obtain ⟨c2, h1, h2, _h3, _h4, h5⟩ :=
    C5_ane_lxa_semantics.2 ({ cpuAboutToLxa with pc := 1 } : Cpu)
      ({ cpuAboutToLxa with pc := 1 } : Cpu).inc_pc 0xFF (by rfl)
  exact ⟨c2, h1, h2, by rw [h5]; decide⟩

/-! ## C4 amended -/

/-- CPU about to execute `BNE` with a same-page target (offset 0x10). -/
def cpuBneNear : Cpu :=
  { cpuWithRam (fun a => if a = 0 then 0xD0 else if a = 1 then 0x10 else 0) with
    pc := 0, p := 0x26 }

/-- C4 amended: the Relative-mode address computation always returns a
one-cycle penalty whenever the branch target's page differs from the page
of the incremented PC — whether or not the branch will be taken — and
`branch` keeps that penalty in both cases, adding one more cycle when the
branch is taken; every branch opcode has a 2-cycle base, so at the step
level a branch consumes 2 + pageCross + (1 if taken): concretely 3/4 for
the page-crossing `BNE` untaken/taken and 2/3 for the same-page one. -/
theorem C4_branch_and_penalty_accounting :
    (∀ (cpu c1 : Cpu) (cond : Bool) (addr cyc : Nat),
      cpu.fetch_operand_addr .Relative = some (addr, cyc, c1) →
      cyc = (if c1.pc &&& 0xFF00 ≠ addr &&& 0xFF00 then 1 else 0) ∧
      Instr.branch cpu .Relative cond =
        some (if cond then { c1 with pc := addr } else c1, cyc + (if cond then 1 else 0)))
  ∧ ((OPCODE_TABLE 0x10).min_cycles = 2 ∧ (OPCODE_TABLE 0x30).min_cycles = 2 ∧
     (OPCODE_TABLE 0x50).min_cycles = 2 ∧ (OPCODE_TABLE 0x70).min_cycles = 2 ∧
     (OPCODE_TABLE 0x90).min_cycles = 2 ∧ (OPCODE_TABLE 0xB0).min_cycles = 2 ∧
     (OPCODE_TABLE 0xD0).min_cycles = 2 ∧ (OPCODE_TABLE 0xF0).min_cycles = 2)
  ∧ (cpuUntakenBne.step).map (fun c => c.bus.cycles) = some 3
  ∧ (({ cpuUntakenBne with p := 0x24 } : Cpu).step).map (fun c => c.bus.cycles) = some 4
  ∧ (cpuBneNear.step).map (fun c => c.bus.cycles) = some 2
  ∧ (({ cpuBneNear with p := 0x24 } : Cpu).step).map (fun c => c.bus.cycles) = some 3 := by
  refine ⟨?_, by decide, by decide, by decide, by decide, by decide⟩
  intro cpu c1 cond addr cyc h
  simp only [Cpu.fetch_operand_addr, Option.bind_eq_bind] at h
  rcases hT : cpu.read_byte cpu.pc with _ | ⟨d, c2⟩ <;> rw [hT] at h
  · simp at h
  · simp only [Option.some_bind, Option.some_inj, Prod.mk.injEq] at h
    obtain ⟨rfl, rfl, rfl⟩ := h
    refine ⟨rfl, ?_⟩
    simp only [Instr.branch, Cpu.fetch_operand_addr, Option.bind_eq_bind, hT, Option.some_bind]
    cases cond <;> simp

/-- C4 witness: the branch clause applied to the concrete not-taken `BNE`
state (its Relative resolution yields target 0x00CF with no page cross). -/
theorem C4_branch_and_penalty_accounting_witness :
    Instr.branch cpuUntakenBne .Relative false = some (cpuUntakenBne.inc_pc, 0) := by
  obtain ⟨_h1, h2⟩ :=
    C4_branch_and_penalty_accounting.1 cpuUntakenBne cpuUntakenBne.inc_pc false 0xCF 0 (by rfl)
  simpa using h2
theorem Ppu.load_pixel_fields (p : Ppu) :
    (p.load_pixel).v = p.v ∧ (p.load_pixel).t = p.t ∧
    (p.load_pixel).frame_ready = p.frame_ready := by
  unfold Ppu.load_pixel
  split <;> exact ⟨rfl, rfl, rfl⟩

set_option maxHeartbeats 1600000 in
theorem Ppu.load_shift_registers_fields (p q : Ppu)
    (h : p.load_shift_registers = some q) :
    q.v = p.v ∧ q.t = p.t ∧ q.frame_ready = p.frame_ready := by
  unfold Ppu.load_shift_registers at h
  repeat' (split at h)
  all_goals
    first
    | (cases h; exact ⟨rfl, rfl, rfl⟩)
    | (obtain ⟨a, _ha, rfl⟩ := Option.map_eq_some'.mp h
       dsimp only
       (try split) <;> (try split) <;> exact ⟨rfl, rfl, rfl⟩)

theorem fetchSpriteGo_fields : ∀ (n i : Nat) (p q : Ppu), fetchSpriteGo p n i = some q →
    q.v = p.v ∧ q.t = p.t ∧ q.frame_ready = p.frame_ready := by
  intro n
  induction n with
  | zero =>
    intro i p q h
    cases h; exact ⟨rfl, rfl, rfl⟩
  | succ n ih =>
    intro i p q h
    unfold fetchSpriteGo at h
    dsimp only at h
    split at h
    · cases h; exact ⟨rfl, rfl, rfl⟩
    · rw [Option.bind_eq_some] at h
      obtain ⟨lo, _hlo, h⟩ := h
      rw [Option.bind_eq_some] at h
      obtain ⟨hi, _hhi, h⟩ := h
      have h4 := ih (i + 1) _ q h
      exact h4

set_option maxHeartbeats 800000 in
theorem Ppu.evaluate_sprites_fields (p q : Ppu) (h : p.evaluate_sprites = some q) :
    q.v = p.v ∧ q.t = p.t ∧ q.frame_ready = p.frame_ready := by
  unfold Ppu.evaluate_sprites at h
  split at h
  · cases h; exact ⟨rfl, rfl, rfl⟩
  split at h
  · dsimp only at h
    split at h
    · cases h
      split <;> exact ⟨rfl, rfl, rfl⟩
    · cases h; exact ⟨rfl, rfl, rfl⟩
  split at h
  · unfold Ppu.fetch_sprite at h
    have h4 := fetchSpriteGo_fields 8 0 _ q h
    exact h4
  · cases h; exact ⟨rfl, rfl, rfl⟩


theorem Ppu.increment_h_fr (p : Ppu) : (p.increment_h).frame_ready = p.frame_ready := by
  unfold Ppu.increment_h; split <;> rfl

theorem Ppu.increment_v_fr (p : Ppu) : (p.increment_v).frame_ready = p.frame_ready := by
  unfold Ppu.increment_v; split <;> rfl

theorem Ppu.copy_h_fr (p : Ppu) : (p.copy_h).frame_ready = p.frame_ready := rfl

theorem Ppu.copy_v_fr (p : Ppu) : (p.copy_v).frame_ready = p.frame_ready := rfl

theorem Ppu.update_scroll_fr (p : Ppu) : (p.update_scroll).frame_ready = p.frame_ready := by
  unfold Ppu.update_scroll
  simp only [apply_ite Ppu.frame_ready, Ppu.increment_h_fr, Ppu.increment_v_fr,
    Ppu.copy_h_fr, Ppu.copy_v_fr, ite_self]

set_option maxHeartbeats 800000 in
/-- C1: amended frame_ready behaviour.  Every successful PPU step raises
`frame_ready` exactly when the step is at scanline 241 dot 1 with NMI output
(ctrl bit 7) enabled, and otherwise leaves it unchanged; `poll_frame` returns
the current flag and always clears it. -/
theorem C1_frame_ready_characterization :
    (∀ p q : Ppu, p.step = some q →
        q.frame_ready = (p.frame_ready ||
          (decide (p.scanline = 241) && decide (p.cycle = 1) &&
           decide (p.ctrl &&& 0x80 ≠ 0)))) ∧
    (∀ c : Cpu, (Nes.poll_frame c).1 = c.bus.ppu.frame_ready ∧
        ((Nes.poll_frame c).2).bus.ppu.frame_ready = false) := by
  constructor
  · intro p q h
    unfold Ppu.step at h
    dsimp only at h
    rw [Option.bind_eq_some] at h
    obtain ⟨sl, hsl, h⟩ := h
    rw [Option.bind_eq_some] at h
    obtain ⟨p1, hp1, h⟩ := h
    have hq : q.frame_ready = p1.frame_ready := by
      try dsimp only at h
      cases h
      rw [Ppu.update_scroll_fr]
      split
      · rfl
      · try dsimp only
        split <;> rfl
    rw [hq]
    cases sl with
    | Visible =>
      have h241 : p.scanline ≠ 241 := by
        intro hn; rw [hn] at hsl; exact absurd hsl (by decide)
      try dsimp only at hp1
      split at hp1
      · rw [Option.bind_eq_some] at hp1
        obtain ⟨p2, hp2, hp1⟩ := hp1
        have e2 := Ppu.evaluate_sprites_fields p p2 hp2
        have e1 := Ppu.load_shift_registers_fields _ _ hp1
        rw [e1.2.2, (Ppu.load_pixel_fields p2).2.2, e2.2.2]
        simp [h241]
      · cases hp1
        simp [h241]
    | PostRender =>
      have h241 : p.scanline ≠ 241 := by
        intro hn; rw [hn] at hsl; exact absurd hsl (by decide)
      try dsimp only at hp1
      cases hp1
      simp [h241]
    | PreRender =>
      have h241 : p.scanline ≠ 241 := by
        intro hn; rw [hn] at hsl; exact absurd hsl (by decide)
      try dsimp only at hp1
      split at hp1
      · have e1 := Ppu.load_shift_registers_fields _ _ hp1
        rw [e1.2.2, (Ppu.load_pixel_fields _).2.2]
        split <;> simp [h241]
      · cases hp1
        split <;> simp [h241]
    | VBlank =>
      try dsimp only at hp1
      split at hp1
      case isTrue h1 =>
        try dsimp only at hp1
        split at hp1
        case isTrue h2 =>
          cases hp1
          simp [h1.1, h1.2, h2]
        case isFalse h2 =>
          simp only [not_not] at h2
          cases hp1
          simp [h2]
      case isFalse h1 =>
        cases hp1
        rcases not_and_or.mp h1 with h | h <;> simp [h]
  · intro c
    exact ⟨rfl, rfl⟩

theorem C1_frame_ready_characterization_witness :
    Option.map Ppu.frame_ready ppuAt241Nmi.step = some true := by
  have hs : (ppuAt241Nmi.step).isSome = true := by decide
  have h := C1_frame_ready_characterization.1 ppuAt241Nmi ((ppuAt241Nmi.step).get hs)
      (Option.some_get hs).symm
  rw [← Option.some_get hs, Option.map_some', h]
  decide

@[reducible] def ScrollInv (p : Ppu) : Prop := p.v < 0x8000 ∧ p.t < 0x8000

theorem lor_lt_0x8000 {a b : Nat} (ha : a < 0x8000) (hb : b < 0x8000) : a ||| b < 0x8000 := by
  have e : (0x8000 : Nat) = 2 ^ 15 := by norm_num
  rw [e] at ha hb ⊢
  exact Nat.or_lt_two_pow ha hb

theorem lxor_lt_0x8000 {a b : Nat} (ha : a < 0x8000) (hb : b < 0x8000) : a ^^^ b < 0x8000 := by
  have e : (0x8000 : Nat) = 2 ^ 15 := by norm_num
  rw [e] at ha hb ⊢
  exact Nat.xor_lt_two_pow ha hb

theorem land_left_lt_0x8000 {a : Nat} (b : Nat) (ha : a < 0x8000) : a &&& b < 0x8000 :=
  Nat.lt_of_le_of_lt Nat.and_le_left ha

theorem land_right_lt_0x8000 (a : Nat) {b : Nat} (hb : b < 0x8000) : a &&& b < 0x8000 :=
  Nat.lt_of_le_of_lt Nat.and_le_right hb

theorem and_0x7000_of_ge {v : Nat} (h1 : 0x7000 ≤ v) (h2 : v < 0x8000) :
    v &&& 0x7000 = 0x7000 := by
  apply Nat.eq_of_testBit_eq
  intro i
  rw [Nat.testBit_land]
  rcases Nat.lt_or_ge i 15 with hi | hi
  · interval_cases i <;> simp [Nat.testBit_to_div_mod] <;> omega
  · have e15 : (0x8000 : Nat) ≤ 2 ^ i := by
      calc (0x8000 : Nat) = 2 ^ 15 := by norm_num
      _ ≤ 2 ^ i := Nat.pow_le_pow_right (by norm_num) hi
    rw [Nat.testBit_lt_two_pow (lt_of_lt_of_le h2 e15),
        Nat.testBit_lt_two_pow (lt_of_lt_of_le (by norm_num) e15)]
    rfl

theorem succ_lt_0x8000 {v : Nat} (h1 : v < 0x8000) (h2 : v &&& 0x1F ≠ 31) : v + 1 < 0x8000 := by
  rcases Nat.lt_or_ge v 0x7FFF with h | h
  · omega
  · exfalso
    apply h2
    have hv : v = 0x7FFF := by omega
    subst hv
    decide

theorem Ppu.increment_h_inv (p : Ppu) (h : ScrollInv p) : ScrollInv p.increment_h := by
  obtain ⟨hv, ht⟩ := h
  unfold Ppu.increment_h
  split
  case isTrue _ => exact ⟨lxor_lt_0x8000 (land_left_lt_0x8000 _ hv) (by norm_num), ht⟩
  case isFalse h2 => exact ⟨succ_lt_0x8000 hv h2, ht⟩

theorem Ppu.increment_v_inv (p : Ppu) (h : ScrollInv p) : ScrollInv p.increment_v := by
  obtain ⟨hv, ht⟩ := h
  unfold Ppu.increment_v
  split
  case isTrue hc =>
    refine ⟨?_, ht⟩
    show p.v + 0x1000 < 0x8000
    rcases Nat.lt_or_ge p.v 0x7000 with h | h
    · omega
    · exact absurd (and_0x7000_of_ge h hv) hc
  case isFalse _ =>
    try dsimp only
    have hv1 : p.v &&& 0x8FFF < 0x8000 := land_left_lt_0x8000 _ hv
    have hy : (p.v &&& 0x8FFF &&& 0x03E0) >>> 5 ≤ 31 := by
      have h1 : p.v &&& 0x8FFF &&& 0x03E0 ≤ 0x03E0 := Nat.and_le_right
      have h2 : (p.v &&& 0x8FFF &&& 0x03E0) >>> 5 = (p.v &&& 0x8FFF &&& 0x03E0) / 32 := by
        norm_num [Nat.shiftRight_eq_div_pow]
      omega
    split
    · exact ⟨lor_lt_0x8000
        (land_left_lt_0x8000 _ (lxor_lt_0x8000 hv1 (by norm_num)))
        (by norm_num [Nat.shiftLeft_eq] : (0:Nat) <<< 5 < 0x8000), ht⟩
    split
    · exact ⟨lor_lt_0x8000 (land_left_lt_0x8000 _ hv1)
        (by norm_num [Nat.shiftLeft_eq] : (0:Nat) <<< 5 < 0x8000), ht⟩
    · refine ⟨lor_lt_0x8000 (land_left_lt_0x8000 _ hv1) ?_, ht⟩
      have h2 : ((p.v &&& 0x8FFF &&& 0x03E0) >>> 5 + 1) <<< 5
          = ((p.v &&& 0x8FFF &&& 0x03E0) >>> 5 + 1) * 32 := by
        norm_num [Nat.shiftLeft_eq]
      omega

theorem Ppu.copy_h_inv (p : Ppu) (h : ScrollInv p) : ScrollInv p.copy_h :=
  ⟨lor_lt_0x8000 (land_left_lt_0x8000 _ h.1) (land_left_lt_0x8000 _ h.2), h.2⟩

theorem Ppu.copy_v_inv (p : Ppu) (h : ScrollInv p) : ScrollInv p.copy_v :=
  ⟨lor_lt_0x8000 (land_left_lt_0x8000 _ h.1) (land_left_lt_0x8000 _ h.2), h.2⟩

theorem Ppu.increment_vram_addr_inv (p : Ppu) (h : ScrollInv p) :
    ScrollInv p.increment_vram_addr :=
  ⟨Nat.lt_of_le_of_lt Nat.and_le_right (by norm_num), h.2⟩

theorem Ppu.write_ctrl_inv (p : Ppu) (d : Nat) (h : ScrollInv p) :
    ScrollInv (p.write_ctrl d) := by
  obtain ⟨hv, ht⟩ := h
  unfold Ppu.write_ctrl
  try dsimp only
  have hd : (d % 256 &&& 0x3) <<< 10 < 0x8000 := by
    have h1 : d % 256 &&& 0x3 ≤ 3 := Nat.and_le_right
    have h2 : (d % 256 &&& 0x3) <<< 10 = (d % 256 &&& 0x3) * 1024 := by
      norm_num [Nat.shiftLeft_eq]
    omega
  split <;> exact ⟨hv, lor_lt_0x8000 (land_left_lt_0x8000 _ ht) hd⟩

theorem Ppu.write_scroll_inv (p : Ppu) (d : Nat) (h : ScrollInv p) :
    ScrollInv (p.write_scroll d) := by
  obtain ⟨hv, ht⟩ := h
  unfold Ppu.write_scroll
  try dsimp only
  split
  · refine ⟨hv, lor_lt_0x8000 (land_left_lt_0x8000 _ ht) ?_⟩
    have h1 : (d % 256) >>> 3 = d % 256 / 8 := by
      rw [Nat.shiftRight_eq_div_pow]
    have h2 : d % 256 < 256 := Nat.mod_lt _ (by norm_num)
    omega
  · refine ⟨hv, lor_lt_0x8000 (lor_lt_0x8000 (land_left_lt_0x8000 _ ht) ?_) ?_⟩
    · have h1 : d % 256 &&& 0xF8 ≤ 0xF8 := Nat.and_le_right
      have h2 : (d % 256 &&& 0xF8) <<< 2 = (d % 256 &&& 0xF8) * 4 := by
        norm_num [Nat.shiftLeft_eq]
      omega
    · have h1 : d % 256 &&& 0x07 ≤ 7 := Nat.and_le_right
      have h2 : (d % 256 &&& 0x07) <<< 12 = (d % 256 &&& 0x07) * 4096 := by
        norm_num [Nat.shiftLeft_eq]
      omega

theorem Ppu.write_addr_inv (p : Ppu) (d : Nat) (h : ScrollInv p) :
    ScrollInv (p.write_addr d) := by
  obtain ⟨hv, ht⟩ := h
  unfold Ppu.write_addr
  try dsimp only
  split
  · refine ⟨hv, lor_lt_0x8000 (land_right_lt_0x8000 _ (by norm_num)) ?_⟩
    have h1 : d % 256 &&& 0x3F ≤ 0x3F := Nat.and_le_right
    have h2 : (d % 256 &&& 0x3F) <<< 8 = (d % 256 &&& 0x3F) * 256 := by
      norm_num [Nat.shiftLeft_eq]
    omega
  · have hnew : (p.t &&& 0xFF00) ||| d % 256 < 0x8000 :=
      lor_lt_0x8000 (land_left_lt_0x8000 _ ht) (by omega)
    exact ⟨hnew, hnew⟩

theorem Ppu.writeF_vt : ∀ (n : Nat) (p : Ppu) (addr data : Nat) (q : Ppu),
    Ppu.writeF n p addr data = some q → q.v = p.v ∧ q.t = p.t := by
  intro n
  induction n with
  | zero => intro p addr data q h; cases h
  | succ n ih =>
    intro p addr data q h
    unfold Ppu.writeF at h
    try dsimp only at h
    split at h
    · cases h; exact ⟨rfl, rfl⟩
    split at h
    · rw [Option.bind_eq_some] at h
      obtain ⟨ma, _hma, h⟩ := h
      obtain ⟨vr, _hvr, rfl⟩ := Option.map_eq_some'.mp h
      exact ⟨rfl, rfl⟩
    split at h
    · have h4 := ih _ _ _ _ h
      exact h4
    · cases h; exact ⟨rfl, rfl⟩

theorem Ppu.write_data_inv (p : Ppu) (d : Nat) (q : Ppu) (hinv : ScrollInv p)
    (h : p.write_data d = some q) : ScrollInv q := by
  unfold Ppu.write_data at h
  obtain ⟨w, hw, rfl⟩ := Option.map_eq_some'.mp h
  have hvt := Ppu.writeF_vt 2 p p.v d w hw
  apply Ppu.increment_vram_addr_inv
  exact ⟨by rw [hvt.1]; exact hinv.1, by rw [hvt.2]; exact hinv.2⟩

theorem Ppu.read_status_inv (p : Ppu) (h : ScrollInv p) : ScrollInv (p.read_status).2 := h

theorem Ppu.read_data_inv (p : Ppu) (r : Nat) (q : Ppu) (hinv : ScrollInv p)
    (h : p.read_data = some (r, q)) : ScrollInv q := by
  unfold Ppu.read_data at h
  split at h
  · obtain ⟨a, _ha, hpair⟩ := Option.map_eq_some'.mp h
    cases hpair
    exact Ppu.increment_vram_addr_inv p hinv
  · obtain ⟨a, _ha, hpair⟩ := Option.map_eq_some'.mp h
    cases hpair
    exact Ppu.increment_vram_addr_inv _ hinv

theorem Ppu.update_scroll_inv (p : Ppu) (h : ScrollInv p) : ScrollInv p.update_scroll := by
  unfold Ppu.update_scroll
  split
  · exact h
  split
  · try dsimp only
    repeat' split
    all_goals
      repeat' first
        | exact h
        | apply Ppu.copy_v_inv
        | apply Ppu.copy_h_inv
        | apply Ppu.increment_v_inv
        | apply Ppu.increment_h_inv
  · exact h

theorem Ppu.step_inv (p q : Ppu) (hinv : ScrollInv p) (h : p.step = some q) :
    ScrollInv q := by
  unfold Ppu.step at h
  dsimp only at h
  rw [Option.bind_eq_some] at h
  obtain ⟨sl, _hsl, h⟩ := h
  rw [Option.bind_eq_some] at h
  obtain ⟨p1, hp1, h⟩ := h
  have hinv1 : ScrollInv p1 := by
    cases sl with
    | PreRender =>
      try dsimp only at hp1
      split at hp1
      · obtain ⟨hv, ht, _⟩ := Ppu.load_shift_registers_fields _ _ hp1
        refine ⟨?_, ?_⟩
        · rw [hv, (Ppu.load_pixel_fields _).1]
          split <;> exact hinv.1
        · rw [ht, (Ppu.load_pixel_fields _).2.1]
          split <;> exact hinv.2
      · cases hp1
        refine ⟨?_, ?_⟩
        · split <;> exact hinv.1
        · split <;> exact hinv.2
    | Visible =>
      try dsimp only at hp1
      split at hp1
      · rw [Option.bind_eq_some] at hp1
        obtain ⟨p2, hp2, hp1⟩ := hp1
        obtain ⟨hv2, ht2, _⟩ := Ppu.evaluate_sprites_fields p p2 hp2
        obtain ⟨hv, ht, _⟩ := Ppu.load_shift_registers_fields _ _ hp1
        exact ⟨by rw [hv, (Ppu.load_pixel_fields p2).1, hv2]; exact hinv.1,
               by rw [ht, (Ppu.load_pixel_fields p2).2.1, ht2]; exact hinv.2⟩
      · cases hp1
        exact hinv
    | PostRender =>
      try dsimp only at hp1
      cases hp1
      exact hinv
    | VBlank =>
      try dsimp only at hp1
      split at hp1
      · try dsimp only at hp1
        split at hp1
        · cases hp1; exact hinv
        · cases hp1; exact hinv
      · cases hp1; exact hinv
  try dsimp only at h
  cases h
  apply Ppu.update_scroll_inv
  split
  · exact hinv1
  · try dsimp only
    split <;> exact hinv1

/-- C10: the 15-bit scroll invariant `v < 0x8000` (together with the matching
invariant for `t`, through which `v` is reloaded) holds for a fresh PPU and is
preserved by the $2000/$2005/$2006/$2007 register writes, by $2002 and $2007
reads, and by every PPU step (coarse-X/fine-Y increments and the h/v copies
included). -/
theorem C10_v_register_15_bit_invariant :
    (∀ rom, ScrollInv (Ppu.new rom)) ∧
    (∀ p d, ScrollInv p → ScrollInv (p.write_ctrl d)) ∧
    (∀ p d, ScrollInv p → ScrollInv (p.write_scroll d)) ∧
    (∀ p d, ScrollInv p → ScrollInv (p.write_addr d)) ∧
    (∀ p d q, ScrollInv p → p.write_data d = some q → ScrollInv q) ∧
    (∀ p, ScrollInv p → ScrollInv (p.read_status).2) ∧
    (∀ p r q, ScrollInv p → p.read_data = some (r, q) → ScrollInv q) ∧
    (∀ p q, ScrollInv p → p.step = some q → ScrollInv q) :=
  ⟨fun _ => ⟨(by norm_num : (0:Nat) < 0x8000), (by norm_num : (0:Nat) < 0x8000)⟩,
   fun p d h => Ppu.write_ctrl_inv p d h,
   fun p d h => Ppu.write_scroll_inv p d h,
   fun p d h => Ppu.write_addr_inv p d h,
   fun p d q h hw => Ppu.write_data_inv p d q h hw,
   fun p h => Ppu.read_status_inv p h,
   fun p r q h hr => Ppu.read_data_inv p r q h hr,
   fun p q h hs => Ppu.step_inv p q h hs⟩

theorem C10_v_register_15_bit_invariant_witness :
    ScrollInv ((Ppu.new romNROM).write_addr 0x3F) :=
  C10_v_register_15_bit_invariant.2.2.2.1 (Ppu.new romNROM) 0x3F
    ⟨(by norm_num : (0:Nat) < 0x8000), (by norm_num : (0:Nat) < 0x8000)⟩

/-- Byte `j` of the 256-byte OAM, as `write_oamdata` addresses it: sprite
`j / 4`, field `y`/`tile`/`attr`/`x` selected by `j % 4`. -/
def Ppu.oam_byte (p : Ppu) (j : Nat) : Nat :=
  let s := p.oam (j / 4)
  if j % 4 = 0 then s.y else if j % 4 = 1 then s.tile else if j % 4 = 2 then s.attr else s.x

theorem Ppu.write_oamdata_oamaddr (p : Ppu) (d : Nat) :
    (p.write_oamdata d).oamaddr = (p.oamaddr + 1) % 256 := by
  unfold Ppu.write_oamdata
  try dsimp only
  split <;> rfl

theorem Ppu.write_oamdata_oam_byte (p : Ppu) (d j : Nat) (ha : p.oamaddr < 256)
    (hj : j < 256) :
    (p.write_oamdata d).oam_byte j = if j = p.oamaddr then d % 256 else p.oam_byte j := by
  have hsi : p.oamaddr / 4 < 64 := by omega
  unfold Ppu.write_oamdata
  try dsimp only
  rw [if_pos hsi]
  unfold Ppu.oam_byte
  try dsimp only
  by_cases hj4 : j / 4 = p.oamaddr / 4
  · simp only [if_pos hj4]
    by_cases hjm : j = p.oamaddr
    · subst hjm
      rw [if_pos rfl]
      have h4 : p.oamaddr % 4 = 0 ∨ p.oamaddr % 4 = 1 ∨
          p.oamaddr % 4 = 2 ∨ p.oamaddr % 4 = 3 := by omega
      rcases h4 with h | h | h | h <;> simp [h]
    · rw [if_neg hjm]
      have hm : j % 4 ≠ p.oamaddr % 4 := by omega
      rw [hj4]
      have h1 : j % 4 = 0 ∨ j % 4 = 1 ∨ j % 4 = 2 ∨ j % 4 = 3 := by omega
      have h2 : p.oamaddr % 4 = 0 ∨ p.oamaddr % 4 = 1 ∨
          p.oamaddr % 4 = 2 ∨ p.oamaddr % 4 = 3 := by omega
      rcases h1 with h1 | h1 | h1 | h1 <;> rcases h2 with h2 | h2 | h2 | h2 <;>
        first
        | exact absurd (h1.trans h2.symm) hm
        | simp [h1, h2]
  · simp only [if_neg hj4]
    rw [if_neg (show j ≠ p.oamaddr by omega)]

theorem Cpu.dmaIter_ram (c : Cpu) (page i : Nat) (hpage : page < 0x20) (hi : i < 256)
    (hsize : c.bus.ram.size = 0x800) :
    c.dmaIter page i =
      some { c with bus := { c.bus with ppu := c.bus.ppu.write_oamdata (c.bus.ram.data ((page * 0x100 + i) &&& 0x7FF) % 256) } } := by
  unfold Cpu.dmaIter Cpu.read_byte Bus.read Memory.read
  try dsimp only
  have e1 : (page * 0x100 + i) % 65536 = page * 0x100 + i := by omega
  rw [e1]
  rw [hsize]
  split
  case isFalse hf => exact absurd (by omega) hf
  case isTrue _ =>
    split
    case isFalse hf =>
      exact absurd (Nat.lt_of_le_of_lt Nat.and_le_right (by norm_num)) hf
    case isTrue _ => rfl

theorem Cpu.dmaRun_spec (page : Nat) (hpage : page < 0x20) :
    ∀ (n : Nat) (c : Cpu), n ≤ 256 → c.bus.ram.size = 0x800 → c.bus.ppu.oamaddr < 256 →
    ∃ c', Cpu.dmaRun page n c = some c' ∧
      c'.bus.ram = c.bus.ram ∧
      c'.bus.cycles = c.bus.cycles ∧
      c'.bus.dma_transfer = c.bus.dma_transfer ∧
      c'.bus.ppu.oamaddr = (c.bus.ppu.oamaddr + n) % 256 ∧
      (∀ i, i < n → c'.bus.ppu.oam_byte ((c.bus.ppu.oamaddr + i) % 256)
          = c.bus.ram.data ((page * 0x100 + i) &&& 0x7FF) % 256) := by
  intro n
  induction n with
  | zero =>
    intro c _ _ hoam
    exact ⟨c, rfl, rfl, rfl, rfl, by omega, fun i hi => absurd hi (by omega)⟩
  | succ n ih =>
    intro c hn hsize hoam
    obtain ⟨cn, hrun, hram, hcyc, hdma, hoamn, hbytes⟩ := ih c (by omega) hsize hoam
    have hsizen : cn.bus.ram.size = 0x800 := by rw [hram]; exact hsize
    have hiter := Cpu.dmaIter_ram cn page n hpage (by omega) hsizen
    have hac : cn.bus.ppu.oamaddr < 256 := by rw [hoamn]; omega
    refine ⟨{ cn with bus := { cn.bus with ppu := cn.bus.ppu.write_oamdata (cn.bus.ram.data ((page * 0x100 + n) &&& 0x7FF) % 256) } },
      ?_, ?_, ?_, ?_, ?_, ?_⟩
    · show (Cpu.dmaRun page n c).bind (fun c1 => c1.dmaIter page n) = _
      rw [hrun, Option.some_bind]
      exact hiter
    · exact hram
    · exact hcyc
    · exact hdma
    · show (cn.bus.ppu.write_oamdata _).oamaddr = _
      rw [Ppu.write_oamdata_oamaddr, hoamn]
      omega
    · intro i hi
      show (cn.bus.ppu.write_oamdata _).oam_byte ((c.bus.ppu.oamaddr + i) % 256) = _
      rw [Ppu.write_oamdata_oam_byte _ _ _ hac (by omega)]
      by_cases hin : i < n
      · rw [if_neg (by rw [hoamn]; omega)]
        exact hbytes i hin
      · have hieq : i = n := by omega
        subst hieq
        rw [if_pos (by rw [hoamn])]
        rw [hram]
        omega

/-- CPU with an OAM-DMA transfer latched for page 2 over identity-patterned
RAM. -/
def cpuDmaReady : Cpu :=
  let c := cpuWithRam (fun a => a)
  { c with bus := { c.bus with dma_transfer := (true, 2) } }

/-- C8: a latched OAM DMA runs at the start of the next CPU step, before the
instruction fetch: it copies the 256 bytes of the latched page (read through
the bus in increasing address order, here out of mirrored RAM) into the 256
consecutive OAM bytes via `write_oamdata`, leaves `oamaddr` back at its
initial value, clears the DMA latch, and charges exactly 514 cycles. -/
theorem C8_oam_dma_transfer (c : Cpu) (page : Nat)
    (hdma : c.bus.dma_transfer = (true, page))
    (hpage : page < 0x20)
    (hsize : c.bus.ram.size = 0x800)
    (hoam : c.bus.ppu.oamaddr < 256) :
    ∃ c', c.stepDma = some c' ∧
      c'.bus.cycles = c.bus.cycles + 514 ∧
      c'.bus.dma_transfer = (false, 0) ∧
      c'.bus.ppu.oamaddr = c.bus.ppu.oamaddr ∧
      (∀ i, i < 256 → c'.bus.ppu.oam_byte ((c.bus.ppu.oamaddr + i) % 256)
          = c.bus.ram.data ((page * 0x100 + i) &&& 0x7FF) % 256) := by
  obtain ⟨cn, hrun, hram, hcyc, hdmat, hoamn, hbytes⟩ :=
    Cpu.dmaRun_spec page hpage 256 c (le_refl _) hsize hoam
  refine ⟨{ cn with bus := { cn.bus with cycles := cn.bus.cycles + 514, dma_transfer := (false, 0) } },
    ?_, ?_, ?_, ?_, ?_⟩
  · unfold Cpu.stepDma
    rw [hdma]
    rw [if_pos rfl]
    show (Cpu.dmaRun page 256 c).map _ = _
    rw [hrun, Option.map_some']
  · show cn.bus.cycles + 514 = _
    rw [hcyc]
  · rfl
  · show cn.bus.ppu.oamaddr = _
    rw [hoamn]
    omega
  · intro i hi
    exact hbytes i hi

theorem C8_oam_dma_transfer_witness :
    (cpuDmaReady.stepDma).isSome = true ∧
    ((cpuDmaReady.stepDma).getD cpuDmaReady).bus.cycles = cpuDmaReady.bus.cycles + 514 := by
  obtain ⟨c', h1, h2, _⟩ :=
    C8_oam_dma_transfer cpuDmaReady 2 rfl (by norm_num) rfl (by decide)
  rw [h1]
  exact ⟨rfl, h2⟩
